import Mathlib

/-!
Shallow embedding of the `ai-fake-star-detector` repository
(`src/watchdog.py` and `src/analyze.py`).

Modelling conventions:
* The HTTP layer is modelled by a *script*: a list of pre-parsed responses.
  Each `requests.get` consumes exactly one script item, so every loop
  (including the 403 retry paths) is structural recursion on the script.
  A script item `none` stands for a network exception in which `requests.get`
  raises without producing a response; an exhausted script means the request
  never receives an answer, which the model treats like the function's abort
  path (the source would block or crash there).
* A response arrives with its headers already parsed: `remaining` is
  `int(response.headers.get('X-RateLimit-Remaining', 0))`, `reset` is the
  `X-RateLimit-Reset` header when present, `hasNext` is `'next' in
  response.links`, `rlMsg` is whether the body text contains
  `'rate limit exceeded'` or `'secondary rate limit'`, and `linkLastPage`
  is the result of the `rel="last"` Link-header surgery of
  `get_total_starred_count` (lines 306-318): `none` when there is no usable
  Link header, `some none` when `rel="last"` is present but the page/per_page
  integers do not parse, `some (some p)` when the last page number `p` parses.
* Time is a rational number of seconds.  The clock advances by the slept
  durations; request latency is not modelled.  No result of any fetch
  function depends on the clock, only the recorded sleep durations do.
* `raise_for_status` raises exactly when the status code is at least 400.
* Every `requests.get` and every `time.sleep` is recorded in an event trace,
  so the temporal claims are statements about the trace.
-/

abbrev Q := Rat

def BASE_URL : String := "https://api.github.com"

/-- The fixed inter-request delay `REQUEST_DELAY = 0.5` seconds (watchdog.py line 31). -/
def REQUEST_DELAY : Q := 1 / 2

/-- A parsed HTTP response carrying a body of type `α`. -/
structure Resp (α : Type) where
  status : Nat
  body : α
  rlMsg : Bool := false
  remaining : Nat := 100
  reset : Option Q := none
  hasNext : Bool := false
  linkLastPage : Option (Option Nat) := none
  deriving Repr

/-- The sequence of answers the network will give; `none` is a network
exception raised by `requests.get` itself. -/
abbrev Script (α : Type) := List (Option (Resp α))

/-- Observable events: an HTTP GET of a url, or a `time.sleep`. -/
inductive Ev
  | get (url : String)
  | sleep (d : Q)
  deriving Repr, DecidableEq

/-- How a Python function call ends: it returns a value, or an uncaught
exception propagates out of it.  The latter happens in every fetch
function when `requests.get` itself raises on the function's first
request: the local `response` is still unbound, so the handler's
`if response is not None:` raises `UnboundLocalError`, which the
`except requests.exceptions.RequestException` clause does not catch. -/
inductive Outcome (α : Type)
  | ret (v : α)
  | crash
  deriving Repr, DecidableEq

/-- The rate-limit failure pattern every fetch function tests for:
`response.status_code == 403 and ('rate limit exceeded' in ... or
'secondary rate limit' in ...)`. -/
def RateLimitedResp {α : Type} (r : Resp α) : Prop :=
  r.status = 403 ∧ r.rlMsg = true

/-- Duration slept on a rate-limited 403:
`max(reset_time - time.time(), 60)` where `reset_time` defaults to
`time.time() + 3600` when the `X-RateLimit-Reset` header is absent. -/
def rlSleepDur (now : Q) (reset : Option Q) : Q :=
  max (reset.getD (now + 3600) - now) 60

/-- The defensive pause: `if remaining < 10: time.sleep(60)`. -/
def pauseEvents (remaining : Nat) : List Ev :=
  if remaining < 10 then [Ev.sleep 60] else []

/-- Clock advance corresponding to `pauseEvents`. -/
def pauseTime (remaining : Nat) (now : Q) : Q :=
  if remaining < 10 then now + 60 else now

/- ------------------------------------------------------------------ -/
/- sanitize_filename: two identical copies, watchdog.py 34-37 and
   analyze.py 11-14.  `re.sub(r'[<>:"/\\|?*]', '_', name)` replaces each
   occurrence of one of the nine listed characters by an underscore. -/

namespace Watchdog

def sanitize_filename (name : String) : String :=
  String.mk (name.data.map fun c =>
    if c ∈ (['<', '>', ':', '\"', '/', '\\', '|', '?', '*'] : List Char) then '_' else c)

end Watchdog

namespace Analyze

def sanitize_filename (name : String) : String :=
  String.mk (name.data.map fun c =>
    if c ∈ (['<', '>', ':', '\"', '/', '\\', '|', '?', '*'] : List Char) then '_' else c)

end Analyze

/- ------------------------------------------------------------------ -/
/- get_stargazers (watchdog.py 60-125) -/

/-- A stargazer object; only `login` is read by the scripts. -/
structure Stargazer where
  login : String
  deriving Repr, DecidableEq

/-- Mutable locals of the `get_stargazers` loop. -/
structure SgState where
  page : Nat
  stargazers : List Stargazer
  fetched_count : Nat
  deriving Repr

/-- The page size `per_page = 100` (line 64). -/
def sgPerPage : Nat := 100

/-- The top-of-loop break `remaining_needed <= 0` (lines 70-73); with
natural numbers this is `limit ≤ fetched_count`. -/
def sgLimitReached (limit : Option Nat) (fetched : Nat) : Bool :=
  match limit with
  | some l => l ≤ fetched
  | none => false

/-- The adjusted `current_per_page` (lines 69-75), used only in the request url. -/
def sgCurrentPerPage (limit : Option Nat) (fetched : Nat) : Nat :=
  match limit with
  | some l => if l - fetched < sgPerPage then l - fetched else sgPerPage
  | none => sgPerPage

def stargazersUrl (owner repo : String) (page perPage : Nat) : String :=
  BASE_URL ++ "/repos/" ++ owner ++ "/" ++ repo ++ "/stargazers?page=" ++
    toString page ++ "&per_page=" ++ toString perPage

/-- The `while True` loop of `get_stargazers` (lines 67-122).  `prev` is
the loop-local `response` variable: `none` while still unbound (before the
first response arrives), `some pr` once an iteration has bound it.  On a
rate-limited 403 it sleeps and retries the same page (`continue`); on any
other failure of a received response it breaks, so the function returns
the stargazers accumulated so far (lines 110-122, 125).  On a network
exception (`requests.get` raising, script item `none`) the handler reads
`response`: if it is still unbound the function crashes with
`UnboundLocalError`; if it holds a stale rate-limited 403 the handler
sleeps (using the stale reset header) and retries; otherwise it breaks. -/
def sgLoop (owner repo : String) (limit : Option Nat) (st : SgState)
    (prev : Option (Resp (List Stargazer))) (now : Q) :
    Script (List Stargazer) → Outcome (List Stargazer) × List Ev
  | [] =>
    if sgLimitReached limit st.fetched_count then (.ret st.stargazers, [])
    else (.ret st.stargazers,
      [Ev.get (stargazersUrl owner repo st.page (sgCurrentPerPage limit st.fetched_count))])
  | none :: rest =>
    if sgLimitReached limit st.fetched_count then (.ret st.stargazers, [])
    else
      let url := stargazersUrl owner repo st.page (sgCurrentPerPage limit st.fetched_count)
      match prev with
      | none => (.crash, [Ev.get url])
      | some pr =>
        if pr.status = 403 ∧ pr.rlMsg then
          let d := rlSleepDur now pr.reset
          let p := sgLoop owner repo limit st prev (now + d) rest
          (p.1, Ev.get url :: Ev.sleep d :: p.2)
        else (.ret st.stargazers, [Ev.get url])
  | some r :: rest =>
    if sgLimitReached limit st.fetched_count then (.ret st.stargazers, [])
    else
      let url := stargazersUrl owner repo st.page (sgCurrentPerPage limit st.fetched_count)
      if 400 ≤ r.status then
        if r.status = 403 ∧ r.rlMsg then
          let d := rlSleepDur now r.reset
          let p := sgLoop owner repo limit st (some r) (now + d) rest
          (p.1, Ev.get url :: Ev.sleep d :: p.2)
        else (.ret st.stargazers, [Ev.get url])
      else
        let pe := pauseEvents r.remaining
        if r.body.isEmpty then (.ret st.stargazers, Ev.get url :: pe)
        else
          let stargazers1 := st.stargazers ++ r.body
          let fetched1 := st.fetched_count + r.body.length
          if sgLimitReached limit fetched1 then
            (.ret (match limit with
              | some l => stargazers1.take l
              | none => stargazers1), Ev.get url :: pe)
          else if !r.hasNext then (.ret stargazers1, Ev.get url :: pe)
          else
            let p := sgLoop owner repo limit
              ⟨st.page + 1, stargazers1, fetched1⟩ (some r)
              (pauseTime r.remaining now + REQUEST_DELAY) rest
            (p.1, Ev.get url :: (pe ++ Ev.sleep REQUEST_DELAY :: p.2))

def get_stargazers (owner repo : String) (limit : Option Nat) (now : Q)
    (script : Script (List Stargazer)) : Outcome (List Stargazer) × List Ev :=
  sgLoop owner repo limit ⟨1, [], 0⟩ none now script

/- ------------------------------------------------------------------ -/
/- get_user_details (watchdog.py 128-161) -/

/-- The fields of the user JSON object that the scripts read. -/
structure UserJson where
  created_at : Option String := none
  public_repos : Option Int := none
  followers : Option Int := none
  following : Option Int := none
  deriving Repr, DecidableEq

def userUrl (username : String) : String := BASE_URL ++ "/users/" ++ username

/-- Function `get_user_details`: single request; on 404 it prints and returns `None`
(the same outcome as any other failure, lines 153-154 then 161); on a
rate-limited 403 it sleeps and calls itself (line 160: a fresh call with
fresh locals).  On a network exception the handler reads the unbound
`response` and the call crashes with `UnboundLocalError`. -/
def get_user_details (username : String) (now : Q) :
    Script UserJson → Outcome (Option UserJson) × List Ev
  | [] => (.ret none, [Ev.get (userUrl username)])
  | none :: _ => (.crash, [Ev.get (userUrl username)])
  | some r :: rest =>
    let url := userUrl username
    if 400 ≤ r.status then
      if r.status = 404 then (.ret none, [Ev.get url])
      else if r.status = 403 ∧ r.rlMsg then
        let d := rlSleepDur now r.reset
        let p := get_user_details username (now + d) rest
        (p.1, Ev.get url :: Ev.sleep d :: p.2)
      else (.ret none, [Ev.get url])
    else
      (.ret (some r.body), Ev.get url :: pauseEvents r.remaining ++ [Ev.sleep REQUEST_DELAY])

/- ------------------------------------------------------------------ -/
/- get_user_repos (watchdog.py 164-225) -/

structure RepoJson where
  name : String
  description : Option String := none
  deriving Repr, DecidableEq

/-- Evaluation of `repo.get('description', '') or ''`: a missing, null or empty
description becomes the empty string. -/
def repoDesc (r : RepoJson) : String := r.description.getD ""

def reposUrl (username : String) (page perPage : Nat) : String :=
  BASE_URL ++ "/users/" ++ username ++ "/repos?sort=pushed&direction=desc&page=" ++
    toString page ++ "&per_page=" ++ toString perPage

/-- Mutable locals of the `get_user_repos` loop; `per_page` is mutated at
lines 205-207. -/
structure UrState where
  page : Nat
  per_page : Nat
  repos : List RepoJson
  fetched_count : Nat
  deriving Repr

/-- The final `return [(name, desc) for repo in repos[:limit]]` (line 225). -/
def urResult (limit : Int) (repos : List RepoJson) : Option (List (String × String)) :=
  some ((repos.take limit.toNat).map fun r => (r.name, repoDesc r))

/-- The `while fetched_count < limit` loop of `get_user_repos`
(lines 178-222).  `prev` is the loop-local `response` variable.
Rate-limited 403 retries the same page; any other failure of a received
response returns `None`.  On a network exception: crash while `response`
is unbound, retry through a stale rate-limited 403, `None` otherwise. -/
def urLoop (username : String) (limit : Int) (st : UrState)
    (prev : Option (Resp (List RepoJson))) (now : Q) :
    Script (List RepoJson) → Outcome (Option (List (String × String))) × List Ev
  | [] =>
    if (st.fetched_count : Int) < limit then
      (.ret none, [Ev.get (reposUrl username st.page st.per_page)])
    else (.ret (urResult limit st.repos), [])
  | none :: rest =>
    if (st.fetched_count : Int) < limit then
      let url := reposUrl username st.page st.per_page
      match prev with
      | none => (.crash, [Ev.get url])
      | some pr =>
        if pr.status = 403 ∧ pr.rlMsg then
          let d := rlSleepDur now pr.reset
          let p := urLoop username limit st prev (now + d) rest
          (p.1, Ev.get url :: Ev.sleep d :: p.2)
        else (.ret none, [Ev.get url])
    else (.ret (urResult limit st.repos), [])
  | some r :: rest =>
    if (st.fetched_count : Int) < limit then
      let url := reposUrl username st.page st.per_page
      if 400 ≤ r.status then
        if r.status = 403 ∧ r.rlMsg then
          let d := rlSleepDur now r.reset
          let p := urLoop username limit st (some r) (now + d) rest
          (p.1, Ev.get url :: Ev.sleep d :: p.2)
        else (.ret none, [Ev.get url])
      else
        let pe := pauseEvents r.remaining
        if r.body.isEmpty then (.ret (urResult limit st.repos), Ev.get url :: pe)
        else
          let repos1 := st.repos ++ r.body
          let fetched1 := st.fetched_count + r.body.length
          if limit ≤ (fetched1 : Int) ∨ !r.hasNext then
            (.ret (urResult limit repos1), Ev.get url :: pe)
          else
            let remaining_needed := limit - (fetched1 : Int)
            let pp1 := if remaining_needed < (st.per_page : Int) then
              remaining_needed.toNat else st.per_page
            let p := urLoop username limit ⟨st.page + 1, pp1, repos1, fetched1⟩ (some r)
              (pauseTime r.remaining now + REQUEST_DELAY) rest
            (p.1, Ev.get url :: (pe ++ Ev.sleep REQUEST_DELAY :: p.2))
    else (.ret (urResult limit st.repos), [])

/-- Function `get_user_repos` (lines 164-225): returns `[]` immediately when
`limit <= 0` (lines 174-176) and otherwise runs the loop with
`per_page = min(limit, 100)` and `response` unbound. -/
def get_user_repos (username : String) (limit : Int) (now : Q)
    (script : Script (List RepoJson)) :
    Outcome (Option (List (String × String))) × List Ev :=
  if limit ≤ 0 then (.ret (some []), [])
  else urLoop username limit ⟨1, (min limit 100).toNat, [], 0⟩ none now script

/- ------------------------------------------------------------------ -/
/- get_starred_repos (watchdog.py 228-270) -/

structure StarJson where
  full_name : String
  description : Option String := none
  deriving Repr, DecidableEq

def starredUrl (username : String) : String :=
  BASE_URL ++ "/users/" ++ username ++ "/starred?page=1&per_page=100"

/-- Function `get_starred_repos`: a single request for the first page.  A 404
returns `None` (lines 240-242), a rate-limited 403 sleeps and calls
itself (line 266, a fresh call), any other HTTP failure returns `None`
(line 267); a network exception crashes in the handler (`response`
unbound). -/
def get_starred_repos (username : String) (now : Q) :
    Script (List StarJson) → Outcome (Option (List (String × String))) × List Ev
  | [] => (.ret none, [Ev.get (starredUrl username)])
  | none :: _ => (.crash, [Ev.get (starredUrl username)])
  | some r :: rest =>
    let url := starredUrl username
    if r.status = 404 then (.ret none, [Ev.get url])
    else if 400 ≤ r.status then
      if r.status = 403 ∧ r.rlMsg then
        let d := rlSleepDur now r.reset
        let p := get_starred_repos username (now + d) rest
        (p.1, Ev.get url :: Ev.sleep d :: p.2)
      else (.ret none, [Ev.get url])
    else
      (.ret (some (r.body.map fun x => (x.full_name, x.description.getD ""))),
       Ev.get url :: pauseEvents r.remaining ++ [Ev.sleep REQUEST_DELAY])

/- ------------------------------------------------------------------ -/
/- get_total_starred_count (watchdog.py 273-352) -/

/-- The possible non-error results of `get_total_starred_count`:
an integer count, the string `f"{n}+"`, or the string `"Private"`. -/
inductive StarredCount
  | cnt (n : Int)
  | plus (n : Nat)
  | priv
  deriving Repr, DecidableEq

def starredCountUrl (username : String) : String :=
  BASE_URL ++ "/users/" ++ username ++ "/starred?per_page=1"

/-- Function `get_total_starred_count`: 404 returns `"Private"` (lines 292-294);
rate-limited 403 sleeps and calls itself (line 351); other failures return
`None`.  On success, a parsable `rel="last"` Link header yields
`page_num * per_page` where `per_page` parsed from the request url is `1`
(lines 305-318); otherwise a second GET of `/users/{username}` is issued
(lines 322-324) whose failure is caught by the handler at line 341, which
inspects the status of the *first* response (2xx here), so any failure of
the second request returns `None`; on its success the function returns the
first page's length, with a `+` suffix when the first response had a next
page (lines 333-337).  The `time.sleep(REQUEST_DELAY)` at line 339 is
unreachable: both branches above it return first.  A network exception on
the first request crashes in the handler (`response` unbound); one on the
second request is caught with `response` bound to the first, 2xx,
response, so it returns `None`. -/
def get_total_starred_count (username : String) (now : Q) :
    Script (List StarJson) → Outcome (Option StarredCount) × List Ev
  | [] => (.ret none, [Ev.get (starredCountUrl username)])
  | none :: _ => (.crash, [Ev.get (starredCountUrl username)])
  | some r :: rest =>
    let url := starredCountUrl username
    if r.status = 404 then (.ret (some .priv), [Ev.get url])
    else if 400 ≤ r.status then
      if r.status = 403 ∧ r.rlMsg then
        let d := rlSleepDur now r.reset
        let p := get_total_starred_count username (now + d) rest
        (p.1, Ev.get url :: Ev.sleep d :: p.2)
      else (.ret none, [Ev.get url])
    else
      let pe := pauseEvents r.remaining
      match r.linkLastPage with
      | some (some p) => (.ret (some (.cnt ((p : Int) * 1))), Ev.get url :: pe)
      | _ =>
        let tr := Ev.get url :: pe ++ [Ev.get (userUrl username)]
        match rest with
        | [] => (.ret none, tr)
        | none :: _ => (.ret none, tr)
        | some u :: _ =>
          if 400 ≤ u.status then (.ret none, tr)
          else
            let first_page_count := r.body.length
            if r.hasNext then (.ret (some (.plus first_page_count)), tr)
            else (.ret (some (.cnt (first_page_count : Int))), tr)

/- ------------------------------------------------------------------ -/
/- get_user_activity (watchdog.py 355-428) -/

/-- The fields of an activity event that the scripts read.  A missing
field (`activity.get(..., 'Unknown')`) is `none`. -/
structure EventJson where
  typ : Option String := none
  created_at : Option String := none
  repo_name : Option String := none
  deriving Repr, DecidableEq

/-- The formatted entry `f"{created_at}: {event_type} on {repo_name}"` (line 423). -/
def formatActivity (a : EventJson) : String :=
  a.created_at.getD "Unknown" ++ ": " ++ a.typ.getD "Unknown" ++ " on " ++
    a.repo_name.getD "Unknown"

def activityUrl (username : String) (page : Nat) : String :=
  BASE_URL ++ "/users/" ++ username ++ "/events/public?page=" ++
    toString page ++ "&per_page=30"

/-- Lines 414-428: a non-empty activity list is formatted entry by entry;
an empty one returns `[]`.  Both are the map. -/
def uaFinish (activities : List EventJson) : Option (List String) :=
  some (activities.map formatActivity)

/-- The `while page <= max_pages` loop of `get_user_activity`
(lines 368-411).  `prev` is the loop-local `response` variable.
404 returns `None`; rate-limited 403 retries the same page; other HTTP
failures return `None`.  On a network exception: crash while `response`
is unbound, retry through a stale rate-limited 403, `None` otherwise. -/
def uaLoop (username : String) (max_pages : Nat) (page : Nat)
    (activities : List EventJson) (prev : Option (Resp (List EventJson))) (now : Q) :
    Script (List EventJson) → Outcome (Option (List String)) × List Ev
  | [] =>
    if page ≤ max_pages then (.ret none, [Ev.get (activityUrl username page)])
    else (.ret (uaFinish activities), [])
  | none :: rest =>
    if page ≤ max_pages then
      let url := activityUrl username page
      match prev with
      | none => (.crash, [Ev.get url])
      | some pr =>
        if pr.status = 403 ∧ pr.rlMsg then
          let d := rlSleepDur now pr.reset
          let p := uaLoop username max_pages page activities prev (now + d) rest
          (p.1, Ev.get url :: Ev.sleep d :: p.2)
        else (.ret none, [Ev.get url])
    else (.ret (uaFinish activities), [])
  | some r :: rest =>
    if page ≤ max_pages then
      let url := activityUrl username page
      if r.status = 404 then (.ret none, [Ev.get url])
      else if 400 ≤ r.status then
        if r.status = 403 ∧ r.rlMsg then
          let d := rlSleepDur now r.reset
          let p := uaLoop username max_pages page activities (some r) (now + d) rest
          (p.1, Ev.get url :: Ev.sleep d :: p.2)
        else (.ret none, [Ev.get url])
      else
        let pe := pauseEvents r.remaining
        if r.body.isEmpty then (.ret (uaFinish activities), Ev.get url :: pe)
        else
          let activities1 := activities ++ r.body
          if !r.hasNext ∨ max_pages ≤ page then
            (.ret (uaFinish activities1), Ev.get url :: pe)
          else
            let p := uaLoop username max_pages (page + 1) activities1 (some r)
              (pauseTime r.remaining now + REQUEST_DELAY) rest
            (p.1, Ev.get url :: (pe ++ Ev.sleep REQUEST_DELAY :: p.2))
    else (.ret (uaFinish activities), [])

def get_user_activity (username : String) (max_pages : Nat) (now : Q)
    (script : Script (List EventJson)) : Outcome (Option (List String)) × List Ev :=
  uaLoop username max_pages 1 [] none now script

/- ------------------------------------------------------------------ -/
/- fetch_and_save_stargazer_data (watchdog.py 432-648): the per-stargazer
   record shaping of lines 460-550 and the analysis-record list.  CSV
   writing itself is file I/O and stays outside the model. -/

/-- A value stored in the `user_data` dict: a string, an int, or a bool. -/
inductive Val
  | s (v : String)
  | i (v : Int)
  | b (v : Bool)
  deriving Repr, DecidableEq

/-- One analysis record (the `user_data` dict of lines 467-473).  The
`total_starred_count` key is absent from the initial dict and only added
at line 529; `none` models the absent key, `some v` the key holding the
result `v` of `get_total_starred_count` (itself possibly Python `None`). -/
structure Record where
  login : String
  created_at : Val
  public_repos : Val
  has_public_repos : Val
  followers : Val
  following : Val
  top_5_repos : Val
  top_5_repos_descriptions : Val
  starred_repo_status : Val
  starred_repos_sample : Val
  starred_repos_descriptions : Val
  user_activity : Val
  total_starred_count : Option (Option StarredCount)
  deriving Repr, DecidableEq

/-- The initial `user_data` dict (lines 467-473): every field `'Error'`,
no `total_starred_count` key. -/
def errorRecord (login : String) : Record :=
  { login := login
    created_at := .s "Error"
    public_repos := .s "Error"
    has_public_repos := .s "Error"
    followers := .s "Error"
    following := .s "Error"
    top_5_repos := .s "Error"
    top_5_repos_descriptions := .s "Error"
    starred_repo_status := .s "Error"
    starred_repos_sample := .s "Error"
    starred_repos_descriptions := .s "Error"
    user_activity := .s "Error"
    total_starred_count := none }

/-- The network's answers for one user: one response script per endpoint
touched inside the per-stargazer loop body. -/
structure UserEnv where
  detailsScript : Script UserJson
  reposScript : Script (List RepoJson)
  starredScript : Script (List StarJson)
  countScript : Script (List StarJson)
  activityScript : Script (List EventJson)

/-- The part of the loop body from line 502 on, given the record `rec1`
built by the details and owned-repos steps: fetch the starred list and
the starred count, fill the starred fields, and fetch activity for
public users.  A crash in any fetch propagates. -/
def processStargazerRest (login : String) (env : UserEnv) (now : Q)
    (has_public_repos : Bool) (rec1 : Record) : Outcome Record :=
  match (get_starred_repos login now env.starredScript).1 with
  | .crash => .crash
  | .ret starred_repos_list =>
    match (get_total_starred_count login now env.countScript).1 with
    | .crash => .crash
    | .ret total_starred_count =>
      let rec2 : Record :=
        match starred_repos_list with
        | none => rec1
        | some sl =>
          let rec2a : Record :=
            if sl.isEmpty then
              { rec1 with
                starred_repo_status := .s "Private (No Access to Starred Repo)"
                starred_repos_sample := .s "None"
                starred_repos_descriptions := .s "None" }
            else
              let sample_list := sl.take 10
              let starred_names := sample_list.map Prod.fst
              let starred_descriptions := sample_list.map Prod.snd
              { rec1 with
                starred_repo_status := .s "Public (Has Starred Repos)"
                starred_repos_sample :=
                  .s (String.intercalate ", " starred_names ++
                    (if 10 < sl.length then
                      ", ... (" ++ toString (sl.length - 10) ++ " more)" else ""))
                starred_repos_descriptions :=
                  .s (String.intercalate " | " starred_descriptions) }
          { rec2a with total_starred_count := some total_starred_count }
      let is_public_user : Bool := has_public_repos ||
        (match starred_repos_list with
         | some sl => !sl.isEmpty
         | none => false)
      if is_public_user then
        match (get_user_activity login 1 now env.activityScript).1 with
        | .crash => .crash
        | .ret none =>
          .ret { rec2 with user_activity := .s "Error fetching activity or private" }
        | .ret (some []) =>
          .ret { rec2 with user_activity := .s "No recent activity" }
        | .ret (some acts) =>
          .ret { rec2 with
            user_activity :=
              .s (String.intercalate " || " (acts.take 10) ++
                (if 10 < acts.length then
                  " || ... (" ++ toString (acts.length - 10) ++ " more events)" else "")) }
      else .ret { rec2 with user_activity := .s "N/A (Private user)" }

/-- The loop body of lines 460-550: build one analysis record for the
stargazer with the given login.  A crash in any of the fetch calls
propagates (the whole batch job dies), in the source's call order:
details, then owned repos (only with public repos), then the rest
(`processStargazerRest`). -/
def processStargazer (login : String) (env : UserEnv) (now : Q) : Outcome Record :=
  match (get_user_details login now env.detailsScript).1 with
  | .crash => .crash
  | .ret none => .ret (errorRecord login)
  | .ret (some details) =>
    let public_repos : Int := details.public_repos.getD 0
    let has_public_repos : Bool := 0 < public_repos
    let rec0 : Record :=
      { errorRecord login with
        created_at := .s (details.created_at.getD "N/A")
        public_repos := .i public_repos
        followers := .i (details.followers.getD 0)
        following := .i (details.following.getD 0)
        has_public_repos := .b has_public_repos }
    if has_public_repos then
      match (get_user_repos login 5 now env.reposScript).1 with
      | .crash => .crash
      | .ret none =>
        processStargazerRest login env now has_public_repos
          { rec0 with
            top_5_repos := .s "Error fetching repos"
            top_5_repos_descriptions := .s "Error fetching repos" }
      | .ret (some top_5_repos_list) =>
        let repo_names := top_5_repos_list.map Prod.fst
        let repo_descriptions := top_5_repos_list.map Prod.snd
        processStargazerRest login env now has_public_repos
          { rec0 with
            top_5_repos :=
              .s (if repo_names.isEmpty then "None" else String.intercalate ", " repo_names)
            top_5_repos_descriptions :=
              .s (if repo_descriptions.isEmpty then "None"
                  else String.intercalate " | " repo_descriptions) }
    else
      processStargazerRest login env now has_public_repos
        { rec0 with
          top_5_repos := .s "N/A (0 public repos)"
          top_5_repos_descriptions := .s "N/A (0 public repos)" }

/-- The `for` loop of lines 460-550 over the fetched stargazers: one
record per stargazer, in order; a crash anywhere aborts the run. -/
def analyzeAll (env : String → UserEnv) (now : Q) :
    List Stargazer → Outcome (List Record)
  | [] => .ret []
  | s :: rest =>
    match processStargazer s.login (env s.login) now with
    | .crash => .crash
    | .ret r =>
      match analyzeAll env now rest with
      | .crash => .crash
      | .ret rs => .ret (r :: rs)

/-- The analysis-record list built by `fetch_and_save_stargazer_data`
(lines 448-550): fetch the stargazers (a crash there propagates), return
early with no records when none were fetched (lines 455-457), else one
record per stargazer in fetch order. -/
def fetch_and_save_stargazer_data (owner repo : String) (limit : Option Nat)
    (now : Q) (sgScript : Script (List Stargazer)) (env : String → UserEnv) :
    Outcome (List Record) :=
  match (get_stargazers owner repo limit now sgScript).1 with
  | .crash => .crash
  | .ret stargazers_to_analyze =>
    if stargazers_to_analyze.isEmpty then .ret []
    else analyzeAll env now stargazers_to_analyze

/- Concrete network environments used to evaluate the record shaping. -/

/-- The user-details request fails with a 500. -/
def envDetailsFail : UserEnv :=
  { detailsScript := [some { status := 500, body := {} }]
    reposScript := []
    starredScript := []
    countScript := []
    activityScript := [] }

/-- Details succeed with two public repos, but the repos request fails. -/
def envReposFail : UserEnv :=
  { detailsScript := [some { status := 200, body := { public_repos := some 2 } }]
    reposScript := [some { status := 500, body := [] }]
    starredScript := [some { status := 200, body := [] }]
    countScript := [some { status := 404, body := [] }]
    activityScript := [some { status := 200, body := [] }] }

/-- Details succeed (no public repos), but the starred request fails. -/
def envStarredFail : UserEnv :=
  { detailsScript := [some { status := 200, body := { public_repos := some 0 } }]
    reposScript := []
    starredScript := [some { status := 500, body := [] }]
    countScript := [some { status := 404, body := [] }]
    activityScript := [] }

/-- Details succeed with public repos, but the activity request fails. -/
def envActivityFail : UserEnv :=
  { detailsScript := [some { status := 200, body := { public_repos := some 1 } }]
    reposScript := [some { status := 200, body := [{ name := "a" }] }]
    starredScript := [some { status := 200, body := [] }]
    countScript := [some { status := 200, body := [] }]
    activityScript := [some { status := 500, body := [] }] }

/-- Details succeed; the starred list is fetched and is empty. -/
def envStarredEmpty : UserEnv :=
  { detailsScript := [some { status := 200, body := { public_repos := some 0 } }]
    reposScript := []
    starredScript := [some { status := 200, body := [] }]
    countScript := [some { status := 200, body := [], linkLastPage := some (some 3) }]
    activityScript := [] }

/-- Details succeed; the starred list is fetched and is non-empty. -/
def envStarredSome : UserEnv :=
  { detailsScript := [some { status := 200, body := { public_repos := some 0 } }]
    reposScript := []
    starredScript := [some { status := 200, body := [{ full_name := "m" }] }]
    countScript := [some { status := 200, body := [{ full_name := "m" }] }]
    activityScript := [some { status := 200, body := [] }] }

/-- The record produced for login `"bob"` under `envReposFail`. -/
def recReposFailBob : Record :=
  { login := "bob", created_at := .s "N/A", public_repos := .i 2
    has_public_repos := .b true, followers := .i 0, following := .i 0
    top_5_repos := .s "Error fetching repos"
    top_5_repos_descriptions := .s "Error fetching repos"
    starred_repo_status := .s "Private (No Access to Starred Repo)"
    starred_repos_sample := .s "None", starred_repos_descriptions := .s "None"
    user_activity := .s "No recent activity"
    total_starred_count := some (some StarredCount.priv) }

/-- The record produced for login `"z"` under `envStarredFail`. -/
def recStarredFailZ : Record :=
  { login := "z", created_at := .s "N/A", public_repos := .i 0
    has_public_repos := .b false, followers := .i 0, following := .i 0
    top_5_repos := .s "N/A (0 public repos)"
    top_5_repos_descriptions := .s "N/A (0 public repos)"
    starred_repo_status := .s "Error", starred_repos_sample := .s "Error"
    starred_repos_descriptions := .s "Error"
    user_activity := .s "N/A (Private user)"
    total_starred_count := none }

/-- The record produced for login `"c"` under `envActivityFail`. -/
def recActivityFailC : Record :=
  { login := "c", created_at := .s "N/A", public_repos := .i 1
    has_public_repos := .b true, followers := .i 0, following := .i 0
    top_5_repos := .s "a", top_5_repos_descriptions := .s ""
    starred_repo_status := .s "Private (No Access to Starred Repo)"
    starred_repos_sample := .s "None", starred_repos_descriptions := .s "None"
    user_activity := .s "Error fetching activity or private"
    total_starred_count := some none }

/-- The record produced for login `"p"` under `envStarredEmpty`. -/
def recStarredEmptyP : Record :=
  { login := "p", created_at := .s "N/A", public_repos := .i 0
    has_public_repos := .b false, followers := .i 0, following := .i 0
    top_5_repos := .s "N/A (0 public repos)"
    top_5_repos_descriptions := .s "N/A (0 public repos)"
    starred_repo_status := .s "Private (No Access to Starred Repo)"
    starred_repos_sample := .s "None", starred_repos_descriptions := .s "None"
    user_activity := .s "N/A (Private user)"
    total_starred_count := some (some (StarredCount.cnt 3)) }

/-- The record produced for login `"q"` under `envStarredSome`. -/
def recStarredSomeQ : Record :=
  { login := "q", created_at := .s "N/A", public_repos := .i 0
    has_public_repos := .b false, followers := .i 0, following := .i 0
    top_5_repos := .s "N/A (0 public repos)"
    top_5_repos_descriptions := .s "N/A (0 public repos)"
    starred_repo_status := .s "Public (Has Starred Repos)"
    starred_repos_sample := .s "m", starred_repos_descriptions := .s ""
    user_activity := .s "No recent activity"
    total_starred_count := some none }

/-- The record produced for login `"s"` under `envStarredFail`. -/
def recStarredFailS : Record :=
  { recStarredFailZ with login := "s" }

/- ================================================================== -/
/- Theorems -/

theorem sanitize_map_idem (l : List Char) :
    (l.map fun c =>
      if c ∈ (['<', '>', ':', '\"', '/', '\\', '|', '?', '*'] : List Char) then '_' else c).map
        (fun c =>
          if c ∈ (['<', '>', ':', '\"', '/', '\\', '|', '?', '*'] : List Char) then '_' else c)
      = l.map fun c =>
          if c ∈ (['<', '>', ':', '\"', '/', '\\', '|', '?', '*'] : List Char) then '_' else c := by
  induction l with
  | nil => rfl
  | cons c l ih =>
    simp only [List.map_cons, ih, List.cons.injEq, and_true]
    by_cases h : c ∈ (['<', '>', ':', '\"', '/', '\\', '|', '?', '*'] : List Char)
    · simp only [if_pos h]
      decide
    · simp only [if_neg h]

theorem sanitize_map_safe (l : List Char) :
    ∀ c ∈ l.map (fun c =>
      if c ∈ (['<', '>', ':', '\"', '/', '\\', '|', '?', '*'] : List Char) then '_' else c),
      c ∉ (['<', '>', ':', '\"', '/', '\\', '|', '?', '*'] : List Char) := by
  intro c hc
  simp only [List.mem_map] at hc
  obtain ⟨a, _, rfl⟩ := hc
  by_cases h : a ∈ (['<', '>', ':', '\"', '/', '\\', '|', '?', '*'] : List Char)
  · simp only [if_pos h]
    decide
  · simp only [if_neg h]
    exact h

/-- C9: `sanitize_filename` is idempotent, its output never contains any of
the characters `< > : " / \ | ? *`, and the copies in `watchdog.py` and
`analyze.py` compute the same function. -/
theorem c9_sanitize_filename_props :
    ∀ s : String,
      Watchdog.sanitize_filename (Watchdog.sanitize_filename s) = Watchdog.sanitize_filename s
      ∧ (∀ c ∈ (Watchdog.sanitize_filename s).data,
          c ∉ (['<', '>', ':', '\"', '/', '\\', '|', '?', '*'] : List Char))
      ∧ Watchdog.sanitize_filename s = Analyze.sanitize_filename s := by
  intro s
  exact ⟨congrArg String.mk (sanitize_map_idem s.data), sanitize_map_safe s.data, rfl⟩

/-- C9 witness: the properties evaluated at the concrete string `"a<b*"`,
whose sanitized form is `"a_b_"`. -/
theorem c9_sanitize_filename_props_witness :
    Watchdog.sanitize_filename (Watchdog.sanitize_filename "a<b*") =
        Watchdog.sanitize_filename "a<b*"
      ∧ '_' ∈ (Watchdog.sanitize_filename "a<b*").data
      ∧ '_' ∉ (['<', '>', ':', '\"', '/', '\\', '|', '?', '*'] : List Char)
      ∧ Watchdog.sanitize_filename "a<b*" = Analyze.sanitize_filename "a<b*" :=
  ⟨(c9_sanitize_filename_props "a<b*").1, by decide,
   (c9_sanitize_filename_props "a<b*").2.1 '_' (by decide),
   (c9_sanitize_filename_props "a<b*").2.2⟩

/-- C8: for every username and every limit at most 0, `get_user_repos`
returns the empty list immediately, with an empty event trace, hence
without issuing any HTTP request (watchdog.py lines 174-176). -/
theorem c8_user_repos_nonpositive_limit :
    ∀ (username : String) (limit : Int), limit ≤ 0 →
      ∀ (now : Q) (script : Script (List RepoJson)),
        get_user_repos username limit now script = (.ret (some []), []) := by
  intro username limit h now script
  unfold get_user_repos
  rw [if_pos h]

/-- C8 witness: `limit = 0` with a network that would in fact answer:
no request is made and the empty list is returned. -/
theorem c8_user_repos_nonpositive_limit_witness :
    (0 : Int) ≤ 0
    ∧ get_user_repos "alice" 0 0
        [some { status := 200, body := [{ name := "r1" }] }] = (.ret (some []), []) :=
  ⟨by decide,
   c8_user_repos_nonpositive_limit "alice" 0 (by decide) 0
     [some { status := 200, body := [{ name := "r1" }] }]⟩

/-- C2 counterexample: the claim says every 404-capable fetch yields an
outcome distinct from a generic non-2xx failure, but `get_user_details`
(watchdog.py lines 148-161) returns `None` for a 404 exactly as it does
for a 500: the two outcomes are equal. -/
theorem c2_counterexample :
    (get_user_details "alice" 0 [some { status := 404, body := {} }]).1
      = (get_user_details "alice" 0 [some { status := 500, body := {} }]).1
    ∧ (get_user_details "alice" 0 [some { status := 404, body := {} }]).1 = .ret none := by
  exact ⟨rfl, rfl⟩

/-- C3 counterexample: the claim says a non-rate-limit failure makes the
operation return `None` and abort rather than return partial data, but
`get_stargazers` (watchdog.py lines 110-122, 125) merely breaks out of its
pagination loop: after one successful page of one stargazer and a 500 on
the second page, it returns the one stargazer already fetched. -/
theorem c3_counterexample :
    (get_stargazers "o" "r" none 0
        [some { status := 200, body := [{ login := "alice" }], hasNext := true },
         some { status := 500, body := [] }]).1
      = .ret [{ login := "alice" }]
    ∧ (get_stargazers "o" "r" none 0
        [some { status := 200, body := [{ login := "alice" }], hasNext := true },
         some { status := 500, body := [] }]).1 ≠ .ret [] := by
  constructor
  · rfl
  · decide

/-- C6 failing input (code slip): in `get_total_starred_count`, the
`time.sleep(REQUEST_DELAY)` at watchdog.py line 339 sits after the
`return` statements of lines 335 and 337 and is unreachable, and the
fallback request to `/users/{username}` (line 323) is issued with no
delay after the starred-page request.  On a successful response with no
usable Link header the function issues two back-to-back requests and
returns with no sleep at all in its trace. -/
theorem c6_failing_input :
    get_total_starred_count "alice" 0
        [some { status := 200, body := [{ full_name := "r1" }], remaining := 50 },
         some { status := 200, body := [] }]
      = (.ret (some (.cnt 1)),
         [Ev.get (starredCountUrl "alice"), Ev.get (userUrl "alice")]) := by
  rfl

/-- C1: every fetch operation, on an HTTP 403 whose body carries a
rate-limit message, sleeps for `max(reset - now, 60)` seconds and then
retries the same request: the run on `some r :: rest` equals the run on
`rest` from the same loop state (same page, same accumulator), with the
failed request and the sleep prepended to the trace.  Because the
continuation is the same operation again, the retry repeats at every
such occurrence until the request succeeds or fails differently. -/
theorem c1_rate_limit_retry :
    ∀ (owner repo username : String) (now : Q),
      (∀ (limit : Option Nat) (st : SgState) (prev : Option (Resp (List Stargazer)))
          (r : Resp (List Stargazer)) (rest : Script (List Stargazer)),
        RateLimitedResp r → sgLimitReached limit st.fetched_count = false →
        sgLoop owner repo limit st prev now (some r :: rest) =
          ((sgLoop owner repo limit st (some r) (now + rlSleepDur now r.reset) rest).1,
           Ev.get (stargazersUrl owner repo st.page (sgCurrentPerPage limit st.fetched_count)) ::
             Ev.sleep (rlSleepDur now r.reset) ::
             (sgLoop owner repo limit st (some r) (now + rlSleepDur now r.reset) rest).2))
    ∧ (∀ (r : Resp UserJson) (rest : Script UserJson),
        RateLimitedResp r →
        get_user_details username now (some r :: rest) =
          ((get_user_details username (now + rlSleepDur now r.reset) rest).1,
           Ev.get (userUrl username) :: Ev.sleep (rlSleepDur now r.reset) ::
             (get_user_details username (now + rlSleepDur now r.reset) rest).2))
    ∧ (∀ (limit : Int) (st : UrState) (prev : Option (Resp (List RepoJson)))
          (r : Resp (List RepoJson)) (rest : Script (List RepoJson)),
        RateLimitedResp r → (st.fetched_count : Int) < limit →
        urLoop username limit st prev now (some r :: rest) =
          ((urLoop username limit st (some r) (now + rlSleepDur now r.reset) rest).1,
           Ev.get (reposUrl username st.page st.per_page) ::
             Ev.sleep (rlSleepDur now r.reset) ::
             (urLoop username limit st (some r) (now + rlSleepDur now r.reset) rest).2))
    ∧ (∀ (r : Resp (List StarJson)) (rest : Script (List StarJson)),
        RateLimitedResp r →
        get_starred_repos username now (some r :: rest) =
          ((get_starred_repos username (now + rlSleepDur now r.reset) rest).1,
           Ev.get (starredUrl username) :: Ev.sleep (rlSleepDur now r.reset) ::
             (get_starred_repos username (now + rlSleepDur now r.reset) rest).2))
    ∧ (∀ (r : Resp (List StarJson)) (rest : Script (List StarJson)),
        RateLimitedResp r →
        get_total_starred_count username now (some r :: rest) =
          ((get_total_starred_count username (now + rlSleepDur now r.reset) rest).1,
           Ev.get (starredCountUrl username) :: Ev.sleep (rlSleepDur now r.reset) ::
             (get_total_starred_count username (now + rlSleepDur now r.reset) rest).2))
    ∧ (∀ (max_pages page : Nat) (acc : List EventJson)
          (prev : Option (Resp (List EventJson))) (r : Resp (List EventJson))
          (rest : Script (List EventJson)),
        RateLimitedResp r → page ≤ max_pages →
        uaLoop username max_pages page acc prev now (some r :: rest) =
          ((uaLoop username max_pages page acc (some r)
              (now + rlSleepDur now r.reset) rest).1,
           Ev.get (activityUrl username page) :: Ev.sleep (rlSleepDur now r.reset) ::
             (uaLoop username max_pages page acc (some r)
               (now + rlSleepDur now r.reset) rest).2)) := by
  intro owner repo username now
  refine ⟨?_, ?_, ?_, ?_, ?_, ?_⟩
  · intro limit st prev r rest hr hlim
    obtain ⟨h403, hmsg⟩ := hr
    simp [sgLoop, hlim, h403, hmsg]
  · intro r rest hr
    obtain ⟨h403, hmsg⟩ := hr
    simp [get_user_details, h403, hmsg]
  · intro limit st prev r rest hr hcond
    obtain ⟨h403, hmsg⟩ := hr
    simp [urLoop, hcond, h403, hmsg]
  · intro r rest hr
    obtain ⟨h403, hmsg⟩ := hr
    simp [get_starred_repos, h403, hmsg]
  · intro r rest hr
    obtain ⟨h403, hmsg⟩ := hr
    simp [get_total_starred_count, h403, hmsg]
  · intro max_pages page acc prev r rest hr hpage
    obtain ⟨h403, hmsg⟩ := hr
    simp [uaLoop, hpage, h403, hmsg]

/-- C1 witness: each of the six operations evaluated on a concrete
rate-limited 403 followed by an exhausted script, starting at time 0 with
no `X-RateLimit-Reset` header, so the slept duration is
`max((0 + 3600) - 0, 60) = 3600`; the trace shows the request, the sleep,
and the identical retried request. -/
theorem c1_rate_limit_retry_witness :
    sgLoop "o" "r" none ⟨1, [], 0⟩ none 0
        [some { status := 403, body := [], rlMsg := true }] =
      (.ret [], [Ev.get (stargazersUrl "o" "r" 1 100), Ev.sleep 3600,
            Ev.get (stargazersUrl "o" "r" 1 100)])
    ∧ get_user_details "u" 0 [some { status := 403, body := {}, rlMsg := true }] =
      (.ret none, [Ev.get (userUrl "u"), Ev.sleep 3600, Ev.get (userUrl "u")])
    ∧ urLoop "u" 5 ⟨1, 5, [], 0⟩ none 0
        [some { status := 403, body := [], rlMsg := true }] =
      (.ret none,
       [Ev.get (reposUrl "u" 1 5), Ev.sleep 3600, Ev.get (reposUrl "u" 1 5)])
    ∧ get_starred_repos "u" 0 [some { status := 403, body := [], rlMsg := true }] =
      (.ret none, [Ev.get (starredUrl "u"), Ev.sleep 3600, Ev.get (starredUrl "u")])
    ∧ get_total_starred_count "u" 0 [some { status := 403, body := [], rlMsg := true }] =
      (.ret none,
       [Ev.get (starredCountUrl "u"), Ev.sleep 3600, Ev.get (starredCountUrl "u")])
    ∧ uaLoop "u" 1 1 [] none 0 [some { status := 403, body := [], rlMsg := true }] =
      (.ret none,
       [Ev.get (activityUrl "u" 1), Ev.sleep 3600, Ev.get (activityUrl "u" 1)]) := by
  have h := c1_rate_limit_retry "o" "r" "u" 0
  refine ⟨?_, ?_, ?_, ?_, ?_, ?_⟩
  · rw [h.1 none ⟨1, [], 0⟩ none { status := 403, body := [], rlMsg := true } []
      ⟨rfl, rfl⟩ rfl]
    norm_num [sgLoop, rlSleepDur, sgCurrentPerPage, sgPerPage, sgLimitReached]
  · rw [h.2.1 { status := 403, body := {}, rlMsg := true } [] ⟨rfl, rfl⟩]
    norm_num [get_user_details, rlSleepDur]
  · rw [h.2.2.1 5 ⟨1, 5, [], 0⟩ none { status := 403, body := [], rlMsg := true } []
      ⟨rfl, rfl⟩ (by norm_num)]
    norm_num [urLoop, rlSleepDur]
  · rw [h.2.2.2.1 { status := 403, body := [], rlMsg := true } [] ⟨rfl, rfl⟩]
    norm_num [get_starred_repos, rlSleepDur]
  · rw [h.2.2.2.2.1 { status := 403, body := [], rlMsg := true } [] ⟨rfl, rfl⟩]
    norm_num [get_total_starred_count, rlSleepDur]
  · rw [h.2.2.2.2.2 1 1 [] none { status := 403, body := [], rlMsg := true } []
      ⟨rfl, rfl⟩ (by norm_num)]
    norm_num [uaLoop, rlSleepDur]

/-- C4: in each paginated fetch the loop advances to the next page exactly
when the successful response carries a `next` link (the advance equation
recurses at `page + 1`), and it terminates - issuing no further request -
when the indicator is absent, when the returned page is empty, or when the
caller-supplied limit (`limit`, resp. `max_pages`) is reached. -/
theorem c4_pagination :
    ∀ (owner repo username : String) (now : Q),
      -- get_stargazers
      (∀ (limit : Option Nat) (st : SgState) (prev : Option (Resp (List Stargazer))),
        (sgLimitReached limit st.fetched_count = true →
          ∀ script, sgLoop owner repo limit st prev now script = (.ret st.stargazers, []))
        ∧ (∀ (r : Resp (List Stargazer)) (rest : Script (List Stargazer)),
            sgLimitReached limit st.fetched_count = false → r.status < 400 →
            (r.body.isEmpty = true →
              sgLoop owner repo limit st prev now (some r :: rest) =
                (.ret st.stargazers,
                 Ev.get (stargazersUrl owner repo st.page
                   (sgCurrentPerPage limit st.fetched_count)) :: pauseEvents r.remaining))
            ∧ (r.body.isEmpty = false →
                sgLimitReached limit (st.fetched_count + r.body.length) = true →
                ∀ l, limit = some l →
                sgLoop owner repo limit st prev now (some r :: rest) =
                  (.ret ((st.stargazers ++ r.body).take l),
                   Ev.get (stargazersUrl owner repo st.page
                     (sgCurrentPerPage limit st.fetched_count)) :: pauseEvents r.remaining))
            ∧ (r.body.isEmpty = false →
                sgLimitReached limit (st.fetched_count + r.body.length) = false →
                r.hasNext = false →
                sgLoop owner repo limit st prev now (some r :: rest) =
                  (.ret (st.stargazers ++ r.body),
                   Ev.get (stargazersUrl owner repo st.page
                     (sgCurrentPerPage limit st.fetched_count)) :: pauseEvents r.remaining))
            ∧ (r.body.isEmpty = false →
                sgLimitReached limit (st.fetched_count + r.body.length) = false →
                r.hasNext = true →
                sgLoop owner repo limit st prev now (some r :: rest) =
                  ((sgLoop owner repo limit
                      ⟨st.page + 1, st.stargazers ++ r.body,
                       st.fetched_count + r.body.length⟩ (some r)
                      (pauseTime r.remaining now + REQUEST_DELAY) rest).1,
                   Ev.get (stargazersUrl owner repo st.page
                     (sgCurrentPerPage limit st.fetched_count)) ::
                     (pauseEvents r.remaining ++ Ev.sleep REQUEST_DELAY ::
                       (sgLoop owner repo limit
                         ⟨st.page + 1, st.stargazers ++ r.body,
                          st.fetched_count + r.body.length⟩ (some r)
                         (pauseTime r.remaining now + REQUEST_DELAY) rest).2)))))
      -- get_user_repos
      ∧ (∀ (limit : Int) (st : UrState) (prev : Option (Resp (List RepoJson))),
          (¬ ((st.fetched_count : Int) < limit) →
            ∀ script, urLoop username limit st prev now script =
              (.ret (urResult limit st.repos), []))
          ∧ (∀ (r : Resp (List RepoJson)) (rest : Script (List RepoJson)),
              (st.fetched_count : Int) < limit → r.status < 400 →
              (r.body.isEmpty = true →
                urLoop username limit st prev now (some r :: rest) =
                  (.ret (urResult limit st.repos),
                   Ev.get (reposUrl username st.page st.per_page) :: pauseEvents r.remaining))
              ∧ (r.body.isEmpty = false →
                  (limit ≤ ((st.fetched_count + r.body.length : Nat) : Int)
                    ∨ r.hasNext = false) →
                  urLoop username limit st prev now (some r :: rest) =
                    (.ret (urResult limit (st.repos ++ r.body)),
                     Ev.get (reposUrl username st.page st.per_page) :: pauseEvents r.remaining))
              ∧ (r.body.isEmpty = false →
                  ¬ (limit ≤ ((st.fetched_count + r.body.length : Nat) : Int)) →
                  r.hasNext = true →
                  urLoop username limit st prev now (some r :: rest) =
                    ((urLoop username limit
                        ⟨st.page + 1,
                         if limit - ((st.fetched_count + r.body.length : Nat) : Int) <
                             (st.per_page : Int) then
                           (limit - ((st.fetched_count + r.body.length : Nat) : Int)).toNat
                         else st.per_page,
                         st.repos ++ r.body, st.fetched_count + r.body.length⟩ (some r)
                        (pauseTime r.remaining now + REQUEST_DELAY) rest).1,
                     Ev.get (reposUrl username st.page st.per_page) ::
                       (pauseEvents r.remaining ++ Ev.sleep REQUEST_DELAY ::
                         (urLoop username limit
                           ⟨st.page + 1,
                            if limit - ((st.fetched_count + r.body.length : Nat) : Int) <
                                (st.per_page : Int) then
                              (limit - ((st.fetched_count + r.body.length : Nat) : Int)).toNat
                            else st.per_page,
                            st.repos ++ r.body, st.fetched_count + r.body.length⟩ (some r)
                           (pauseTime r.remaining now + REQUEST_DELAY) rest).2)))))
      -- get_user_activity
      ∧ (∀ (max_pages page : Nat) (acc : List EventJson)
            (prev : Option (Resp (List EventJson))),
          (max_pages < page →
            ∀ script, uaLoop username max_pages page acc prev now script =
              (.ret (uaFinish acc), []))
          ∧ (∀ (r : Resp (List EventJson)) (rest : Script (List EventJson)),
              page ≤ max_pages → r.status < 400 →
              (r.body.isEmpty = true →
                uaLoop username max_pages page acc prev now (some r :: rest) =
                  (.ret (uaFinish acc),
                   Ev.get (activityUrl username page) :: pauseEvents r.remaining))
              ∧ (r.body.isEmpty = false →
                  (r.hasNext = false ∨ max_pages ≤ page) →
                  uaLoop username max_pages page acc prev now (some r :: rest) =
                    (.ret (uaFinish (acc ++ r.body)),
                     Ev.get (activityUrl username page) :: pauseEvents r.remaining))
              ∧ (r.body.isEmpty = false → r.hasNext = true → page < max_pages →
                  uaLoop username max_pages page acc prev now (some r :: rest) =
                    ((uaLoop username max_pages (page + 1) (acc ++ r.body) (some r)
                        (pauseTime r.remaining now + REQUEST_DELAY) rest).1,
                     Ev.get (activityUrl username page) ::
                       (pauseEvents r.remaining ++ Ev.sleep REQUEST_DELAY ::
                         (uaLoop username max_pages (page + 1) (acc ++ r.body) (some r)
                           (pauseTime r.remaining now + REQUEST_DELAY) rest).2))))) := by
  intro owner repo username now
  refine ⟨?_, ?_, ?_⟩
  · intro limit st prev
    constructor
    · intro hlim script
      rcases script with _ | ⟨_ | r, rest⟩ <;> simp [sgLoop, hlim]
    · intro r rest hlim hok
      have h400 : ¬ (400 ≤ r.status) := by omega
      refine ⟨?_, ?_, ?_, ?_⟩
      · intro hbody
        simp [sgLoop, hlim, h400, hbody]
      · intro hbody hl2 l hleq
        subst hleq
        simp [sgLoop, hlim, h400, hbody, hl2]
      · intro hbody hl2 hnext
        simp [sgLoop, hlim, h400, hbody, hl2, hnext]
      · intro hbody hl2 hnext
        simp [sgLoop, hlim, h400, hbody, hl2, hnext]
  · intro limit st prev
    constructor
    · intro hlim script
      rcases script with _ | ⟨_ | r, rest⟩ <;> simp [urLoop, hlim]
    · intro r rest hlim hok
      have h400 : ¬ (400 ≤ r.status) := by omega
      refine ⟨?_, ?_, ?_⟩
      · intro hbody
        simp [urLoop, hlim, h400, hbody]
      · intro hbody hbr
        rcases hbr with h | h
        · have h' : limit ≤ (st.fetched_count : Int) + (r.body.length : Int) := by
            push_cast at h
            exact h
          simp [urLoop, hlim, h400, hbody, h']
        · simp [urLoop, hlim, h400, hbody, h]
      · intro hbody hfe hnext
        have h' : ¬ (limit ≤ (st.fetched_count : Int) + (r.body.length : Int)) := by
          push_cast at hfe
          exact hfe
        simp [urLoop, hlim, h400, hbody, h', hnext]
  · intro max_pages page acc prev
    constructor
    · intro hpage script
      have h : ¬ (page ≤ max_pages) := by omega
      rcases script with _ | ⟨_ | r, rest⟩ <;> simp [uaLoop, h]
    · intro r rest hpage hok
      have h400 : ¬ (400 ≤ r.status) := by omega
      have h404 : ¬ (r.status = 404) := by omega
      refine ⟨?_, ?_, ?_⟩
      · intro hbody
        simp [uaLoop, hpage, h400, h404, hbody]
      · intro hbody hbr
        rcases hbr with h | h <;> simp [uaLoop, hpage, h400, h404, hbody, h]
      · intro hbody hnext hlt
        have h2 : ¬ (max_pages ≤ page) := by omega
        simp [uaLoop, hpage, h400, h404, hbody, hnext, h2]

/-- C4 witness: each termination and advancement case evaluated on
concrete loop states and responses (remaining quota 100, so no defensive
pause appears in the traces). -/
theorem c4_pagination_witness :
    -- stargazers: limit already reached, no request
    sgLoop "o" "r" (some 0) ⟨1, [], 0⟩ none 0 [] = (.ret [], [])
    -- stargazers: empty page terminates
    ∧ sgLoop "o" "r" none ⟨1, [], 0⟩ none 0 [some { status := 200, body := [] }] =
        (.ret [], [Ev.get (stargazersUrl "o" "r" 1 100)])
    -- stargazers: limit hit after extending terminates and trims
    ∧ sgLoop "o" "r" (some 1) ⟨1, [], 0⟩ none 0
        [some { status := 200, body := [{ login := "a" }] }] =
        (.ret [{ login := "a" }], [Ev.get (stargazersUrl "o" "r" 1 1)])
    -- stargazers: absent next indicator terminates
    ∧ sgLoop "o" "r" none ⟨1, [], 0⟩ none 0
        [some { status := 200, body := [{ login := "a" }] }] =
        (.ret [{ login := "a" }], [Ev.get (stargazersUrl "o" "r" 1 100)])
    -- stargazers: next indicator advances to page 2 (script then exhausted)
    ∧ sgLoop "o" "r" none ⟨1, [], 0⟩ none 0
        [some { status := 200, body := [{ login := "a" }], hasNext := true }] =
        (.ret [{ login := "a" }],
         [Ev.get (stargazersUrl "o" "r" 1 100), Ev.sleep REQUEST_DELAY,
          Ev.get (stargazersUrl "o" "r" 2 100)])
    -- repos: limit already reached, no request
    ∧ urLoop "u" 1 ⟨2, 5, [{ name := "a" }], 1⟩ none 0 [] =
        (.ret (some [("a", "")]), [])
    -- repos: empty page terminates
    ∧ urLoop "u" 5 ⟨1, 5, [], 0⟩ none 0 [some { status := 200, body := [] }] =
        (.ret (some []), [Ev.get (reposUrl "u" 1 5)])
    -- repos: absent next indicator terminates
    ∧ urLoop "u" 5 ⟨1, 5, [], 0⟩ none 0
        [some { status := 200, body := [{ name := "a" }] }] =
        (.ret (some [("a", "")]), [Ev.get (reposUrl "u" 1 5)])
    -- repos: next indicator advances to page 2 with shrunk per_page
    ∧ urLoop "u" 5 ⟨1, 5, [], 0⟩ none 0
        [some { status := 200, body := [{ name := "a" }], hasNext := true }] =
        (.ret none, [Ev.get (reposUrl "u" 1 5), Ev.sleep REQUEST_DELAY,
                Ev.get (reposUrl "u" 2 4)])
    -- activity: page beyond max_pages, no request
    ∧ uaLoop "u" 1 2 [] none 0 [] = (.ret (some []), [])
    -- activity: empty page terminates
    ∧ uaLoop "u" 1 1 [] none 0 [some { status := 200, body := [] }] =
        (.ret (some []), [Ev.get (activityUrl "u" 1)])
    -- activity: max_pages reached terminates even with a next indicator
    ∧ uaLoop "u" 1 1 [] none 0
        [some { status := 200,
                body := [{ typ := some "PushEvent", created_at := some "t",
                           repo_name := some "n" }],
                hasNext := true }] =
        (.ret (some ["t: PushEvent on n"]), [Ev.get (activityUrl "u" 1)])
    -- activity: next indicator advances to page 2 (script then exhausted)
    ∧ uaLoop "u" 2 1 [] none 0
        [some { status := 200,
                body := [{ typ := some "PushEvent", created_at := some "t",
                           repo_name := some "n" }],
                hasNext := true }] =
        (.ret none, [Ev.get (activityUrl "u" 1), Ev.sleep REQUEST_DELAY,
                Ev.get (activityUrl "u" 2)]) := by
  have h := c4_pagination "o" "r" "u" 0
  refine ⟨?_, ?_, ?_, ?_, ?_, ?_, ?_, ?_, ?_, ?_, ?_, ?_, ?_⟩
  · exact (h.1 (some 0) ⟨1, [], 0⟩ none).1 rfl []
  · exact ((h.1 none ⟨1, [], 0⟩ none).2 { status := 200, body := [] } [] rfl
      (by decide)).1 rfl
  · exact ((h.1 (some 1) ⟨1, [], 0⟩ none).2
      { status := 200, body := [{ login := "a" }] } []
      rfl (by decide)).2.1 rfl rfl 1 rfl
  · exact ((h.1 none ⟨1, [], 0⟩ none).2 { status := 200, body := [{ login := "a" }] } []
      rfl (by decide)).2.2.1 rfl rfl rfl
  · exact ((h.1 none ⟨1, [], 0⟩ none).2
      { status := 200, body := [{ login := "a" }], hasNext := true } []
      rfl (by decide)).2.2.2 rfl rfl rfl
  · exact (h.2.1 1 ⟨2, 5, [{ name := "a" }], 1⟩ none).1 (by decide) []
  · exact ((h.2.1 5 ⟨1, 5, [], 0⟩ none).2 { status := 200, body := [] } [] (by decide)
      (by decide)).1 rfl
  · exact ((h.2.1 5 ⟨1, 5, [], 0⟩ none).2 { status := 200, body := [{ name := "a" }] } []
      (by decide) (by decide)).2.1 rfl (Or.inr rfl)
  · exact ((h.2.1 5 ⟨1, 5, [], 0⟩ none).2
      { status := 200, body := [{ name := "a" }], hasNext := true } []
      (by decide) (by decide)).2.2 rfl (by decide) rfl
  · exact (h.2.2 1 2 [] none).1 (by decide) []
  · exact ((h.2.2 1 1 [] none).2 { status := 200, body := [] } [] (by decide)
      (by decide)).1 rfl
  · exact ((h.2.2 1 1 [] none).2
      { status := 200,
        body := [{ typ := some "PushEvent", created_at := some "t",
                   repo_name := some "n" }],
        hasNext := true } [] (by decide) (by decide)).2.1 rfl
      (Or.inr (by decide))
  · exact ((h.2.2 2 1 [] none).2
      { status := 200,
        body := [{ typ := some "PushEvent", created_at := some "t",
                   repo_name := some "n" }],
        hasNext := true } [] (by decide) (by decide)).2.2 rfl rfl
      (by decide)

theorem urResult_length_le (limit : Int) (repos : List RepoJson)
    (res : List (String × String)) (h : urResult limit repos = some res) :
    res.length ≤ limit.toNat := by
  simp only [urResult, Option.some.injEq] at h
  subst h
  simp only [List.length_map, List.length_take]
  exact min_le_left _ _

theorem sgLoop_length_le (owner repo : String) (l : Nat) :
    ∀ (script : Script (List Stargazer)) (st : SgState)
      (prev : Option (Resp (List Stargazer))) (now : Q),
      st.fetched_count = st.stargazers.length →
      st.stargazers.length ≤ l →
      ∀ res, (sgLoop owner repo (some l) st prev now script).1 = .ret res →
        res.length ≤ l := by
  intro script
  induction script with
  | nil =>
    intro st prev now hfc hlen res h
    simp only [sgLoop] at h
    split at h <;> (simp only [Outcome.ret.injEq] at h; exact h ▸ hlen)
  | cons head rest ih =>
    intro st prev now hfc hlen res h
    rcases head with _ | r
    · by_cases h1 : sgLimitReached (some l) st.fetched_count = true
      · simp [sgLoop, h1] at h
        exact h ▸ hlen
      · have h1' : sgLimitReached (some l) st.fetched_count = false := by
          simpa using h1
        rcases prev with _ | pr
        · simp [sgLoop, h1'] at h
        · by_cases h3 : pr.status = 403 ∧ pr.rlMsg = true
          · obtain ⟨h403, hmsg⟩ := h3
            simp [sgLoop, h1', h403, hmsg] at h
            exact ih st (some pr) _ hfc hlen res h
          · simp [sgLoop, h1', h3] at h
            exact h ▸ hlen
    · by_cases h1 : sgLimitReached (some l) st.fetched_count = true
      · simp [sgLoop, h1] at h
        exact h ▸ hlen
      · have h1' : sgLimitReached (some l) st.fetched_count = false := by
          simpa using h1
        by_cases h2 : 400 ≤ r.status
        · by_cases h3 : r.status = 403 ∧ r.rlMsg = true
          · obtain ⟨h403, hmsg⟩ := h3
            simp [sgLoop, h1', h403, hmsg] at h
            exact ih st (some r) _ hfc hlen res h
          · simp [sgLoop, h1', h2, h3] at h
            exact h ▸ hlen
        · by_cases h4 : r.body.isEmpty = true
          · simp [sgLoop, h1', h2, h4] at h
            exact h ▸ hlen
          · have h4' : r.body.isEmpty = false := by simpa using h4
            by_cases h5 : sgLimitReached (some l) (st.fetched_count + r.body.length) = true
            · simp [sgLoop, h1', h2, h4', h5] at h
              rw [← h]
              simp [List.length_take]
            · have h5' : sgLimitReached (some l) (st.fetched_count + r.body.length) = false := by
                simpa using h5
              have hlt : st.fetched_count + r.body.length < l := by
                simp only [sgLimitReached, decide_eq_false_iff_not, Nat.not_le] at h5'
                exact h5'
              by_cases h6 : r.hasNext = true
              · simp [sgLoop, h1', h2, h4', h5', h6] at h
                refine ih ⟨st.page + 1, st.stargazers ++ r.body,
                  st.fetched_count + r.body.length⟩ (some r) _ ?_ ?_ res h
                · simp only [List.length_append]
                  omega
                · simp only [List.length_append]
                  omega
              · have h6' : r.hasNext = false := by simpa using h6
                simp [sgLoop, h1', h2, h4', h5', h6'] at h
                rw [← h]
                simp only [List.length_append]
                omega

theorem urLoop_length_le (username : String) (limit : Int) :
    ∀ (script : Script (List RepoJson)) (st : UrState)
      (prev : Option (Resp (List RepoJson))) (now : Q)
      (res : List (String × String)),
      (urLoop username limit st prev now script).1 = .ret (some res) →
      res.length ≤ limit.toNat := by
  intro script
  induction script with
  | nil =>
    intro st prev now res h
    simp only [urLoop] at h
    split at h
    · simp at h
    · simp only [Outcome.ret.injEq] at h
      exact urResult_length_le _ _ _ h
  | cons head rest ih =>
    intro st prev now res h
    rcases head with _ | r
    · by_cases h1 : (st.fetched_count : Int) < limit
      · rcases prev with _ | pr
        · simp [urLoop, h1] at h
        · by_cases h3 : pr.status = 403 ∧ pr.rlMsg = true
          · obtain ⟨h403, hmsg⟩ := h3
            simp [urLoop, h1, h403, hmsg] at h
            exact ih st (some pr) _ res h
          · simp [urLoop, h1, h3] at h
      · simp [urLoop, h1] at h
        exact urResult_length_le _ _ _ h
    · by_cases h1 : (st.fetched_count : Int) < limit
      · by_cases h2 : 400 ≤ r.status
        · by_cases h3 : r.status = 403 ∧ r.rlMsg = true
          · obtain ⟨h403, hmsg⟩ := h3
            simp [urLoop, h1, h403, hmsg] at h
            exact ih st (some r) _ res h
          · simp [urLoop, h1, h2, h3] at h
        · by_cases h4 : r.body.isEmpty = true
          · simp [urLoop, h1, h2, h4] at h
            exact urResult_length_le _ _ _ h
          · have h4' : r.body.isEmpty = false := by simpa using h4
            by_cases h5 : limit ≤ (st.fetched_count : Int) + (r.body.length : Int)
            · simp [urLoop, h1, h2, h4', h5] at h
              exact urResult_length_le _ _ _ h
            · by_cases h6 : r.hasNext = true
              · simp [urLoop, h1, h2, h4', h5, h6] at h
                exact ih _ (some r) _ res h
              · have h6' : r.hasNext = false := by simpa using h6
                simp [urLoop, h1, h2, h4', h5, h6'] at h
                exact urResult_length_le _ _ _ h
      · simp [urLoop, h1] at h
        exact urResult_length_le _ _ _ h

/-- C5: with a limit set, whenever `get_stargazers` returns a list it has
at most `limit` stargazers (trimming any excess fetched within the last
page, watchdog.py line 100), and whenever `get_user_repos` returns a list
it has at most `limit` `(name, description)` tuples (line 225). -/
theorem c5_fetch_limits :
    (∀ (owner repo : String) (l : Nat) (now : Q) (script : Script (List Stargazer))
      (res : List Stargazer),
      (get_stargazers owner repo (some l) now script).1 = .ret res →
      res.length ≤ l)
    ∧ (∀ (username : String) (limit : Int) (now : Q) (script : Script (List RepoJson))
        (res : List (String × String)),
        (get_user_repos username limit now script).1 = .ret (some res) →
        res.length ≤ limit.toNat) := by
  constructor
  · intro owner repo l now script res h
    exact sgLoop_length_le owner repo l script ⟨1, [], 0⟩ none now rfl (Nat.zero_le l) res h
  · intro username limit now script res h
    by_cases h0 : limit ≤ 0
    · unfold get_user_repos at h
      rw [if_pos h0] at h
      simp only [Outcome.ret.injEq, Option.some.injEq] at h
      subst h
      simp
    · unfold get_user_repos at h
      rw [if_neg h0] at h
      exact urLoop_length_le username limit script _ none now res h

/-- C5 witness: a server page larger than the remaining need - two items
when one was asked for - is trimmed to the limit by both functions. -/
theorem c5_fetch_limits_witness :
    (get_stargazers "o" "r" (some 1) 0
        [some { status := 200, body := [{ login := "a" }, { login := "b" }] }]).1
      = .ret [{ login := "a" }]
    ∧ ([{ login := "a" }] : List Stargazer).length ≤ 1
    ∧ (get_user_repos "u" 1 0
        [some { status := 200, body := [{ name := "a" }, { name := "b" }] }]).1
      = .ret (some [("a", "")])
    ∧ ([("a", "")] : List (String × String)).length ≤ (1 : Int).toNat :=
  ⟨rfl,
   c5_fetch_limits.1 "o" "r" 1 0
     [some { status := 200, body := [{ login := "a" }, { login := "b" }] }]
     [{ login := "a" }] rfl,
   rfl,
   c5_fetch_limits.2 "u" 1 0
     [some { status := 200, body := [{ name := "a" }, { name := "b" }] }]
     [("a", "")] rfl⟩

/-- C2 (amended): only `get_total_starred_count` maps HTTP 404 to an
outcome (`"Private"`) distinct from the generic-failure outcome `None`,
and that `"Private"` value is the one used to infer a private account
state; `get_user_details`, `get_starred_repos` and `get_user_activity`
return `None` for a 404 exactly as for a generic failure. -/
theorem c2_amended_notfound_outcomes :
    ∀ (username : String) (now : Q),
      (∀ (r : Resp (List StarJson)) (rest : Script (List StarJson)), r.status = 404 →
        (get_total_starred_count username now (some r :: rest)).1 =
          .ret (some StarredCount.priv))
      ∧ (∀ (r : Resp (List StarJson)) (rest : Script (List StarJson)),
          400 ≤ r.status → r.status ≠ 404 → ¬ (r.status = 403 ∧ r.rlMsg = true) →
          (get_total_starred_count username now (some r :: rest)).1 = .ret none)
      ∧ Outcome.ret (some StarredCount.priv) ≠
          (.ret none : Outcome (Option StarredCount))
      ∧ (∀ (r : Resp UserJson) (rest : Script UserJson), r.status = 404 →
          (get_user_details username now (some r :: rest)).1 = .ret none)
      ∧ (∀ (r : Resp (List StarJson)) (rest : Script (List StarJson)), r.status = 404 →
          (get_starred_repos username now (some r :: rest)).1 = .ret none)
      ∧ (∀ (max_pages page : Nat) (acc : List EventJson)
          (prev : Option (Resp (List EventJson))) (r : Resp (List EventJson))
          (rest : Script (List EventJson)), page ≤ max_pages → r.status = 404 →
          (uaLoop username max_pages page acc prev now (some r :: rest)).1 = .ret none) := by
  intro username now
  refine ⟨?_, ?_, ?_, ?_, ?_, ?_⟩
  · intro r rest h404
    simp [get_total_starred_count, h404]
  · intro r rest h400 hne hrl
    simp [get_total_starred_count, hne, h400, hrl]
  · simp
  · intro r rest h404
    simp [get_user_details, h404]
  · intro r rest h404
    simp [get_starred_repos, h404]
  · intro max_pages page acc prev r rest hpage h404
    simp [uaLoop, hpage, h404]

/-- C2 witness: the amended behaviour at concrete 404 and 500
responses. -/
theorem c2_amended_notfound_outcomes_witness :
    (get_total_starred_count "u" 0 [some { status := 404, body := [] }]).1
      = .ret (some StarredCount.priv)
    ∧ (get_total_starred_count "u" 0 [some { status := 500, body := [] }]).1 = .ret none
    ∧ Outcome.ret (some StarredCount.priv) ≠
        (.ret none : Outcome (Option StarredCount))
    ∧ (get_user_details "u" 0 [some { status := 404, body := {} }]).1 = .ret none
    ∧ (get_starred_repos "u" 0 [some { status := 404, body := [] }]).1 = .ret none
    ∧ (uaLoop "u" 1 1 [] none 0 [some { status := 404, body := [] }]).1 = .ret none := by
  have h := c2_amended_notfound_outcomes "u" 0
  exact ⟨h.1 { status := 404, body := [] } [] rfl,
    h.2.1 { status := 500, body := [] } [] (by decide) (by decide) (by decide),
    h.2.2.1,
    h.2.2.2.1 { status := 404, body := {} } [] rfl,
    h.2.2.2.2.1 { status := 404, body := [] } [] rfl,
    h.2.2.2.2.2 1 1 [] none { status := 404, body := [] } [] (by decide) rfl⟩

/-- C3 (amended): on a non-rate-limited HTTP error response, the per-user
fetches (`get_user_details`, `get_user_repos`, `get_starred_repos`,
`get_total_starred_count` except its 404 case, and `get_user_activity`)
return `None` and stop, while `get_stargazers` breaks out of its
pagination loop and returns the stargazers accumulated so far - partial
data rather than a failure marker.  A network exception does not produce
the `None` outcome: on a fetch's first request the handler reads the
still-unbound `response` and the function crashes with an uncaught
`UnboundLocalError`; mid-pagination the handler consults the stale
previous response - sleeping and retrying if it was a rate-limited 403,
otherwise breaking (`get_stargazers`) or returning `None` (the other
loops). -/
theorem c3_amended_failure_outcomes :
    ∀ (username : String) (now : Q),
      -- non-rate-limited HTTP error responses
      (∀ (r : Resp UserJson) (rest : Script UserJson),
        400 ≤ r.status → ¬ (r.status = 403 ∧ r.rlMsg = true) →
        (get_user_details username now (some r :: rest)).1 = .ret none)
      ∧ (∀ (limit : Int) (st : UrState) (prev : Option (Resp (List RepoJson)))
          (r : Resp (List RepoJson)) (rest : Script (List RepoJson)),
          (st.fetched_count : Int) < limit →
          400 ≤ r.status → ¬ (r.status = 403 ∧ r.rlMsg = true) →
          urLoop username limit st prev now (some r :: rest) =
            (.ret none, [Ev.get (reposUrl username st.page st.per_page)]))
      ∧ (∀ (r : Resp (List StarJson)) (rest : Script (List StarJson)),
          400 ≤ r.status → ¬ (r.status = 403 ∧ r.rlMsg = true) →
          (get_starred_repos username now (some r :: rest)).1 = .ret none)
      ∧ (∀ (r : Resp (List StarJson)) (rest : Script (List StarJson)),
          400 ≤ r.status → r.status ≠ 404 → ¬ (r.status = 403 ∧ r.rlMsg = true) →
          (get_total_starred_count username now (some r :: rest)).1 = .ret none)
      ∧ (∀ (max_pages page : Nat) (acc : List EventJson)
          (prev : Option (Resp (List EventJson))) (r : Resp (List EventJson))
          (rest : Script (List EventJson)), page ≤ max_pages →
          400 ≤ r.status → ¬ (r.status = 403 ∧ r.rlMsg = true) →
          (uaLoop username max_pages page acc prev now (some r :: rest)).1 = .ret none)
      ∧ (∀ (owner repo : String) (limit : Option Nat) (st : SgState)
          (prev : Option (Resp (List Stargazer)))
          (r : Resp (List Stargazer)) (rest : Script (List Stargazer)),
          sgLimitReached limit st.fetched_count = false →
          400 ≤ r.status → ¬ (r.status = 403 ∧ r.rlMsg = true) →
          sgLoop owner repo limit st prev now (some r :: rest) =
            (.ret st.stargazers,
             [Ev.get (stargazersUrl owner repo st.page
               (sgCurrentPerPage limit st.fetched_count))]))
      -- network exception on the first request: the handler reads the
      -- unbound response variable and the function crashes
      ∧ (∀ rest : Script UserJson,
          get_user_details username now (none :: rest) =
            (.crash, [Ev.get (userUrl username)]))
      ∧ (∀ rest : Script (List StarJson),
          get_starred_repos username now (none :: rest) =
            (.crash, [Ev.get (starredUrl username)]))
      ∧ (∀ rest : Script (List StarJson),
          get_total_starred_count username now (none :: rest) =
            (.crash, [Ev.get (starredCountUrl username)]))
      ∧ (∀ (limit : Int) (st : UrState) (rest : Script (List RepoJson)),
          (st.fetched_count : Int) < limit →
          urLoop username limit st none now (none :: rest) =
            (.crash, [Ev.get (reposUrl username st.page st.per_page)]))
      ∧ (∀ (max_pages page : Nat) (acc : List EventJson)
          (rest : Script (List EventJson)), page ≤ max_pages →
          uaLoop username max_pages page acc none now (none :: rest) =
            (.crash, [Ev.get (activityUrl username page)]))
      ∧ (∀ (owner repo : String) (limit : Option Nat) (st : SgState)
          (rest : Script (List Stargazer)),
          sgLimitReached limit st.fetched_count = false →
          sgLoop owner repo limit st none now (none :: rest) =
            (.crash,
             [Ev.get (stargazersUrl owner repo st.page
               (sgCurrentPerPage limit st.fetched_count))]))
      -- network exception mid-pagination: the handler consults the stale
      -- previous response
      ∧ (∀ (owner repo : String) (limit : Option Nat) (st : SgState)
          (pr : Resp (List Stargazer)) (rest : Script (List Stargazer)),
          sgLimitReached limit st.fetched_count = false → RateLimitedResp pr →
          sgLoop owner repo limit st (some pr) now (none :: rest) =
            ((sgLoop owner repo limit st (some pr)
                (now + rlSleepDur now pr.reset) rest).1,
             Ev.get (stargazersUrl owner repo st.page
               (sgCurrentPerPage limit st.fetched_count)) ::
               Ev.sleep (rlSleepDur now pr.reset) ::
               (sgLoop owner repo limit st (some pr)
                 (now + rlSleepDur now pr.reset) rest).2))
      ∧ (∀ (owner repo : String) (limit : Option Nat) (st : SgState)
          (pr : Resp (List Stargazer)) (rest : Script (List Stargazer)),
          sgLimitReached limit st.fetched_count = false →
          ¬ (pr.status = 403 ∧ pr.rlMsg = true) →
          sgLoop owner repo limit st (some pr) now (none :: rest) =
            (.ret st.stargazers,
             [Ev.get (stargazersUrl owner repo st.page
               (sgCurrentPerPage limit st.fetched_count))]))
      ∧ (∀ (limit : Int) (st : UrState) (pr : Resp (List RepoJson))
          (rest : Script (List RepoJson)),
          (st.fetched_count : Int) < limit → RateLimitedResp pr →
          urLoop username limit st (some pr) now (none :: rest) =
            ((urLoop username limit st (some pr)
                (now + rlSleepDur now pr.reset) rest).1,
             Ev.get (reposUrl username st.page st.per_page) ::
               Ev.sleep (rlSleepDur now pr.reset) ::
               (urLoop username limit st (some pr)
                 (now + rlSleepDur now pr.reset) rest).2))
      ∧ (∀ (limit : Int) (st : UrState) (pr : Resp (List RepoJson))
          (rest : Script (List RepoJson)),
          (st.fetched_count : Int) < limit →
          ¬ (pr.status = 403 ∧ pr.rlMsg = true) →
          urLoop username limit st (some pr) now (none :: rest) =
            (.ret none, [Ev.get (reposUrl username st.page st.per_page)]))
      ∧ (∀ (max_pages page : Nat) (acc : List EventJson) (pr : Resp (List EventJson))
          (rest : Script (List EventJson)), page ≤ max_pages → RateLimitedResp pr →
          uaLoop username max_pages page acc (some pr) now (none :: rest) =
            ((uaLoop username max_pages page acc (some pr)
                (now + rlSleepDur now pr.reset) rest).1,
             Ev.get (activityUrl username page) ::
               Ev.sleep (rlSleepDur now pr.reset) ::
               (uaLoop username max_pages page acc (some pr)
                 (now + rlSleepDur now pr.reset) rest).2))
      ∧ (∀ (max_pages page : Nat) (acc : List EventJson) (pr : Resp (List EventJson))
          (rest : Script (List EventJson)), page ≤ max_pages →
          ¬ (pr.status = 403 ∧ pr.rlMsg = true) →
          uaLoop username max_pages page acc (some pr) now (none :: rest) =
            (.ret none, [Ev.get (activityUrl username page)])) := by
  intro username now
  refine ⟨?_, ?_, ?_, ?_, ?_, ?_, ?_, ?_, ?_, ?_, ?_, ?_, ?_, ?_, ?_, ?_, ?_, ?_⟩
  · intro r rest h400 hrl
    by_cases h404 : r.status = 404
    · simp [get_user_details, h404]
    · simp [get_user_details, h404, h400, hrl]
  · intro limit st prev r rest hcond h400 hrl
    simp [urLoop, hcond, h400, hrl]
  · intro r rest h400 hrl
    by_cases h404 : r.status = 404
    · simp [get_starred_repos, h404]
    · simp [get_starred_repos, h404, h400, hrl]
  · intro r rest h400 hne hrl
    simp [get_total_starred_count, hne, h400, hrl]
  · intro max_pages page acc prev r rest hpage h400 hrl
    by_cases h404 : r.status = 404
    · simp [uaLoop, hpage, h404]
    · simp [uaLoop, hpage, h404, h400, hrl]
  · intro owner repo limit st prev r rest hlim h400 hrl
    simp [sgLoop, hlim, h400, hrl]
  · intro rest
    simp [get_user_details]
  · intro rest
    simp [get_starred_repos]
  · intro rest
    simp [get_total_starred_count]
  · intro limit st rest hcond
    simp [urLoop, hcond]
  · intro max_pages page acc rest hpage
    simp [uaLoop, hpage]
  · intro owner repo limit st rest hlim
    simp [sgLoop, hlim]
  · intro owner repo limit st pr rest hlim hpr
    obtain ⟨h403, hmsg⟩ := hpr
    simp [sgLoop, hlim, h403, hmsg]
  · intro owner repo limit st pr rest hlim hpr
    simp [sgLoop, hlim, hpr]
  · intro limit st pr rest hcond hpr
    obtain ⟨h403, hmsg⟩ := hpr
    simp [urLoop, hcond, h403, hmsg]
  · intro limit st pr rest hcond hpr
    simp [urLoop, hcond, hpr]
  · intro max_pages page acc pr rest hpage hpr
    obtain ⟨h403, hmsg⟩ := hpr
    simp [uaLoop, hpage, h403, hmsg]
  · intro max_pages page acc pr rest hpage hpr
    simp [uaLoop, hpage, hpr]

/-- C3 witness: the amended behaviour on concrete inputs - a 500 response
gives `None` (or, for `get_stargazers`, the partial list); a network
exception on the first request crashes each fetch; a mid-pagination
network exception retries through a stale rate-limited 403 and otherwise
breaks or returns `None`. -/
theorem c3_amended_failure_outcomes_witness :
    (get_user_details "u" 0 [some { status := 500, body := {} }]).1 = .ret none
    ∧ urLoop "u" 5 ⟨1, 5, [], 0⟩ none 0 [some { status := 500, body := [] }] =
        (.ret none, [Ev.get (reposUrl "u" 1 5)])
    ∧ (get_starred_repos "u" 0 [some { status := 500, body := [] }]).1 = .ret none
    ∧ (get_total_starred_count "u" 0 [some { status := 500, body := [] }]).1 = .ret none
    ∧ (uaLoop "u" 1 1 [] none 0 [some { status := 500, body := [] }]).1 = .ret none
    ∧ sgLoop "o" "r" none ⟨2, [{ login := "a" }], 1⟩ none 0
        [some { status := 500, body := [] }] =
        (.ret [{ login := "a" }], [Ev.get (stargazersUrl "o" "r" 2 100)])
    ∧ get_user_details "u" 0 [none] = (.crash, [Ev.get (userUrl "u")])
    ∧ get_starred_repos "u" 0 [none] = (.crash, [Ev.get (starredUrl "u")])
    ∧ get_total_starred_count "u" 0 [none] = (.crash, [Ev.get (starredCountUrl "u")])
    ∧ urLoop "u" 5 ⟨1, 5, [], 0⟩ none 0 [none] = (.crash, [Ev.get (reposUrl "u" 1 5)])
    ∧ uaLoop "u" 1 1 [] none 0 [none] = (.crash, [Ev.get (activityUrl "u" 1)])
    ∧ sgLoop "o" "r" none ⟨1, [], 0⟩ none 0 [none] =
        (.crash, [Ev.get (stargazersUrl "o" "r" 1 100)])
    ∧ sgLoop "o" "r" none ⟨2, [{ login := "a" }], 1⟩
        (some { status := 403, body := [], rlMsg := true }) 0 [none] =
        (.ret [{ login := "a" }],
         [Ev.get (stargazersUrl "o" "r" 2 100), Ev.sleep 3600,
          Ev.get (stargazersUrl "o" "r" 2 100)])
    ∧ sgLoop "o" "r" none ⟨2, [{ login := "a" }], 1⟩
        (some { status := 200, body := [{ login := "a" }], hasNext := true }) 0 [none] =
        (.ret [{ login := "a" }], [Ev.get (stargazersUrl "o" "r" 2 100)])
    ∧ urLoop "u" 5 ⟨2, 4, [{ name := "a" }], 1⟩
        (some { status := 403, body := [], rlMsg := true }) 0 [none] =
        (.ret none,
         [Ev.get (reposUrl "u" 2 4), Ev.sleep 3600, Ev.get (reposUrl "u" 2 4)])
    ∧ urLoop "u" 5 ⟨2, 4, [{ name := "a" }], 1⟩
        (some { status := 200, body := [{ name := "a" }], hasNext := true }) 0 [none] =
        (.ret none, [Ev.get (reposUrl "u" 2 4)])
    ∧ uaLoop "u" 2 2 [] (some { status := 403, body := [], rlMsg := true }) 0 [none] =
        (.ret none,
         [Ev.get (activityUrl "u" 2), Ev.sleep 3600, Ev.get (activityUrl "u" 2)])
    ∧ uaLoop "u" 2 2 []
        (some { status := 200, body := [{ typ := some "PushEvent" }],
                hasNext := true }) 0 [none] =
        (.ret none, [Ev.get (activityUrl "u" 2)]) := by
  have h := c3_amended_failure_outcomes "u" 0
  refine ⟨?_, ?_, ?_, ?_, ?_, ?_, ?_, ?_, ?_, ?_, ?_, ?_, ?_, ?_, ?_, ?_, ?_, ?_⟩
  · exact h.1 { status := 500, body := {} } [] (by decide) (by decide)
  · exact h.2.1 5 ⟨1, 5, [], 0⟩ none { status := 500, body := [] } [] (by decide)
      (by decide) (by decide)
  · exact h.2.2.1 { status := 500, body := [] } [] (by decide) (by decide)
  · exact h.2.2.2.1 { status := 500, body := [] } [] (by decide) (by decide) (by decide)
  · exact h.2.2.2.2.1 1 1 [] none { status := 500, body := [] } [] (by decide)
      (by decide) (by decide)
  · exact h.2.2.2.2.2.1 "o" "r" none ⟨2, [{ login := "a" }], 1⟩ none
      { status := 500, body := [] } [] rfl (by decide) (by decide)
  · exact h.2.2.2.2.2.2.1 []
  · exact h.2.2.2.2.2.2.2.1 []
  · exact h.2.2.2.2.2.2.2.2.1 []
  · exact h.2.2.2.2.2.2.2.2.2.1 5 ⟨1, 5, [], 0⟩ [] (by decide)
  · exact h.2.2.2.2.2.2.2.2.2.2.1 1 1 [] [] (by decide)
  · exact h.2.2.2.2.2.2.2.2.2.2.2.1 "o" "r" none ⟨1, [], 0⟩ [] rfl
  · rw [h.2.2.2.2.2.2.2.2.2.2.2.2.1 "o" "r" none ⟨2, [{ login := "a" }], 1⟩
      { status := 403, body := [], rlMsg := true } [] rfl ⟨rfl, rfl⟩]
    norm_num [sgLoop, rlSleepDur, sgCurrentPerPage, sgPerPage, sgLimitReached]
  · exact h.2.2.2.2.2.2.2.2.2.2.2.2.2.1 "o" "r" none ⟨2, [{ login := "a" }], 1⟩
      { status := 200, body := [{ login := "a" }], hasNext := true } [] rfl (by decide)
  · rw [h.2.2.2.2.2.2.2.2.2.2.2.2.2.2.1 5 ⟨2, 4, [{ name := "a" }], 1⟩
      { status := 403, body := [], rlMsg := true } [] (by decide) ⟨rfl, rfl⟩]
    norm_num [urLoop, rlSleepDur]
  · exact h.2.2.2.2.2.2.2.2.2.2.2.2.2.2.2.1 5 ⟨2, 4, [{ name := "a" }], 1⟩
      { status := 200, body := [{ name := "a" }], hasNext := true } [] (by decide)
      (by decide)
  · rw [h.2.2.2.2.2.2.2.2.2.2.2.2.2.2.2.2.1 2 2 []
      { status := 403, body := [], rlMsg := true } [] (by decide) ⟨rfl, rfl⟩]
    norm_num [uaLoop, rlSleepDur]
  · exact h.2.2.2.2.2.2.2.2.2.2.2.2.2.2.2.2.2 2 2 []
      { status := 200, body := [{ typ := some "PushEvent" }], hasNext := true } []
      (by decide) (by decide)

theorem processStargazerRest_crash (login : String) (env : UserEnv) (now : Q)
    (hp : Bool) (rec1 : Record)
    (hs : (get_starred_repos login now env.starredScript).1 = .crash) :
    processStargazerRest login env now hp rec1 = .crash := by
  simp [processStargazerRest, hs]

theorem processStargazerRest_login (login : String) (env : UserEnv) (now : Q)
    (hp : Bool) (rec1 : Record) :
    ∀ r, processStargazerRest login env now hp rec1 = .ret r → r.login = rec1.login := by
  intro r h
  simp only [processStargazerRest] at h
  repeat' split at h
  all_goals (cases h <;> rfl)

theorem processStargazerRest_top5 (login : String) (env : UserEnv) (now : Q)
    (hp : Bool) (rec1 : Record) :
    ∀ r, processStargazerRest login env now hp rec1 = .ret r →
      r.top_5_repos = rec1.top_5_repos
      ∧ r.top_5_repos_descriptions = rec1.top_5_repos_descriptions := by
  intro r h
  simp only [processStargazerRest] at h
  repeat' split at h
  all_goals (cases h <;> exact ⟨rfl, rfl⟩)

theorem processStargazerRest_starred_none (login : String) (env : UserEnv) (now : Q)
    (hp : Bool) (rec1 : Record)
    (hs : (get_starred_repos login now env.starredScript).1 = .ret none) :
    ∀ r, processStargazerRest login env now hp rec1 = .ret r →
      r.starred_repo_status = rec1.starred_repo_status
      ∧ r.starred_repos_sample = rec1.starred_repos_sample
      ∧ r.starred_repos_descriptions = rec1.starred_repos_descriptions
      ∧ r.total_starred_count = rec1.total_starred_count := by
  intro r h
  simp only [processStargazerRest, hs] at h
  repeat' split at h
  all_goals (cases h <;> exact ⟨rfl, rfl, rfl, rfl⟩)

theorem processStargazerRest_starred_empty (login : String) (env : UserEnv) (now : Q)
    (hp : Bool) (rec1 : Record)
    (hs : (get_starred_repos login now env.starredScript).1 = .ret (some [])) :
    ∀ r, processStargazerRest login env now hp rec1 = .ret r →
      r.starred_repo_status = Val.s "Private (No Access to Starred Repo)" := by
  intro r h
  simp [processStargazerRest, hs] at h
  repeat' split at h
  all_goals (cases h <;> rfl)

theorem processStargazerRest_starred_cons (login : String) (env : UserEnv) (now : Q)
    (hp : Bool) (rec1 : Record) (x : String × String) (l : List (String × String))
    (hs : (get_starred_repos login now env.starredScript).1 = .ret (some (x :: l))) :
    ∀ r, processStargazerRest login env now hp rec1 = .ret r →
      r.starred_repo_status = Val.s "Public (Has Starred Repos)" := by
  intro r h
  simp [processStargazerRest, hs] at h
  repeat' split at h
  all_goals (cases h <;> rfl)

theorem processStargazerRest_total (login : String) (env : UserEnv) (now : Q)
    (hp : Bool) (rec1 : Record) (sl : List (String × String)) (t : Option StarredCount)
    (hs : (get_starred_repos login now env.starredScript).1 = .ret (some sl))
    (hcnt : (get_total_starred_count login now env.countScript).1 = .ret t) :
    ∀ r, processStargazerRest login env now hp rec1 = .ret r →
      r.total_starred_count = some t := by
  intro r h
  simp only [processStargazerRest, hs, hcnt] at h
  repeat' split at h
  all_goals (cases h <;> rfl)

theorem processStargazerRest_total_ne (login : String) (env : UserEnv) (now : Q)
    (hp : Bool) (rec1 : Record) (sl : List (String × String))
    (hs : (get_starred_repos login now env.starredScript).1 = .ret (some sl)) :
    ∀ r, processStargazerRest login env now hp rec1 = .ret r →
      r.total_starred_count ≠ none := by
  intro r h
  simp only [processStargazerRest, hs] at h
  repeat' split at h
  all_goals (cases h <;> simp)

theorem processStargazerRest_activity_none (login : String) (env : UserEnv) (now : Q)
    (rec1 : Record)
    (hact : (get_user_activity login 1 now env.activityScript).1 = .ret none) :
    ∀ r, processStargazerRest login env now true rec1 = .ret r →
      r.user_activity = Val.s "Error fetching activity or private" := by
  intro r h
  simp [processStargazerRest, hact] at h
  repeat' split at h
  all_goals (cases h <;> rfl)

theorem processStargazer_ret_login (login : String) (env : UserEnv) (now : Q) :
    ∀ r, processStargazer login env now = .ret r → r.login = login := by
  intro r h
  cases hd : (get_user_details login now env.detailsScript).1 with
  | crash => simp [processStargazer, hd] at h
  | ret v =>
    cases v with
    | none =>
      simp only [processStargazer, hd] at h
      cases h
      rfl
    | some d =>
      simp only [processStargazer, hd] at h
      repeat' split at h
      all_goals
        first
        | cases h
        | exact (processStargazerRest_login _ _ _ _ _ _ h).trans rfl

theorem analyzeAll_length (env : String → UserEnv) (now : Q) :
    ∀ (l : List Stargazer) (rs : List Record),
      analyzeAll env now l = .ret rs → rs.length = l.length := by
  intro l
  induction l with
  | nil =>
    intro rs h
    simp only [analyzeAll] at h
    cases h
    rfl
  | cons s t ih =>
    intro rs h
    simp only [analyzeAll] at h
    cases hp : processStargazer s.login (env s.login) now with
    | crash =>
      rw [hp] at h
      simp at h
    | ret r =>
      rw [hp] at h
      cases hq : analyzeAll env now t with
      | crash =>
        rw [hq] at h
        simp at h
      | ret rs' =>
        rw [hq] at h
        simp at h
        subst h
        simp [ih rs' hq]

theorem analyzeAll_get_login (env : String → UserEnv) (now : Q) :
    ∀ (l : List Stargazer) (rs : List Record),
      analyzeAll env now l = .ret rs →
      ∀ (i : Nat) (h1 : i < rs.length) (h2 : i < l.length),
        (rs.get ⟨i, h1⟩).login = (l.get ⟨i, h2⟩).login := by
  intro l
  induction l with
  | nil =>
    intro rs h i h1 h2
    exact absurd h2 (by simp)
  | cons s t ih =>
    intro rs h i h1 h2
    simp only [analyzeAll] at h
    cases hp : processStargazer s.login (env s.login) now with
    | crash =>
      rw [hp] at h
      simp at h
    | ret r =>
      rw [hp] at h
      cases hq : analyzeAll env now t with
      | crash =>
        rw [hq] at h
        simp at h
      | ret rs' =>
        rw [hq] at h
        simp at h
        subst h
        cases i with
        | zero =>
          simpa using processStargazer_ret_login s.login (env s.login) now r hp
        | succ j =>
          exact ih rs' hq j (by simpa using h1) (by simpa using h2)

/-- C7 counterexample: the claim says failed enrichment fields are left as
`'Error'`, but when the owned-repos fetch fails the field is overwritten
with `"Error fetching repos"` (watchdog.py line 488), which is not the
string `'Error'`. -/
theorem c7_counterexample :
    processStargazer "bob" envReposFail 0 = .ret recReposFailBob
    ∧ recReposFailBob.top_5_repos = Val.s "Error fetching repos"
    ∧ Val.s "Error fetching repos" ≠ Val.s "Error" := by
  refine ⟨rfl, rfl, ?_⟩
  decide

/-- C7 (amended): `fetch_and_save_stargazer_data` produces exactly one
analysis record per fetched stargazer, in fetch order, with matching
`login`, whenever the run completes (a crash in any fetch aborts the
whole batch instead); a record is appended even when enrichment fails.
When the user-details fetch fails every enrichment field is left as
`'Error'`; when the starred fetch fails the starred fields remain
`'Error'` and the `total_starred_count` key is never added; failed repos
and activity fetches record the explicit markers `"Error fetching repos"`
and `"Error fetching activity or private"`. -/
theorem c7_amended_one_record_per_stargazer :
    ∀ (owner repo : String) (limit : Option Nat) (now : Q)
      (sgScript : Script (List Stargazer)) (env : String → UserEnv),
      ((get_stargazers owner repo limit now sgScript).1 = .crash →
        fetch_and_save_stargazer_data owner repo limit now sgScript env = .crash)
      ∧ (∀ sg, (get_stargazers owner repo limit now sgScript).1 = .ret sg →
          fetch_and_save_stargazer_data owner repo limit now sgScript env =
            analyzeAll env now sg)
      ∧ (∀ sg recs, (get_stargazers owner repo limit now sgScript).1 = .ret sg →
          fetch_and_save_stargazer_data owner repo limit now sgScript env = .ret recs →
          recs.length = sg.length)
      ∧ (∀ sg recs, (get_stargazers owner repo limit now sgScript).1 = .ret sg →
          fetch_and_save_stargazer_data owner repo limit now sgScript env = .ret recs →
          ∀ (i : Nat) (h1 : i < recs.length) (h2 : i < sg.length),
            (recs.get ⟨i, h1⟩).login = (sg.get ⟨i, h2⟩).login)
      ∧ (∀ (login : String) (env1 : UserEnv),
          (get_user_details login now env1.detailsScript).1 = .ret none →
          processStargazer login env1 now = .ret (errorRecord login))
      ∧ (∀ (login : String) (env1 : UserEnv) (d : UserJson) (r : Record),
          (get_user_details login now env1.detailsScript).1 = .ret (some d) →
          (get_starred_repos login now env1.starredScript).1 = .ret none →
          processStargazer login env1 now = .ret r →
          r.starred_repo_status = Val.s "Error"
          ∧ r.starred_repos_sample = Val.s "Error"
          ∧ r.starred_repos_descriptions = Val.s "Error"
          ∧ r.total_starred_count = none)
      ∧ (∀ (login : String) (env1 : UserEnv) (d : UserJson) (r : Record),
          (get_user_details login now env1.detailsScript).1 = .ret (some d) →
          0 < d.public_repos.getD 0 →
          (get_user_repos login 5 now env1.reposScript).1 = .ret none →
          processStargazer login env1 now = .ret r →
          r.top_5_repos = Val.s "Error fetching repos"
          ∧ r.top_5_repos_descriptions = Val.s "Error fetching repos")
      ∧ (∀ (login : String) (env1 : UserEnv) (d : UserJson) (r : Record),
          (get_user_details login now env1.detailsScript).1 = .ret (some d) →
          0 < d.public_repos.getD 0 →
          (get_user_activity login 1 now env1.activityScript).1 = .ret none →
          processStargazer login env1 now = .ret r →
          r.user_activity = Val.s "Error fetching activity or private") := by
  intro owner repo limit now sgScript env
  have hchar : ∀ sg, (get_stargazers owner repo limit now sgScript).1 = .ret sg →
      fetch_and_save_stargazer_data owner repo limit now sgScript env =
        analyzeAll env now sg := by
    intro sg hsg
    rcases sg with _ | ⟨a, t⟩
    · simp [fetch_and_save_stargazer_data, hsg, analyzeAll]
    · simp [fetch_and_save_stargazer_data, hsg]
  refine ⟨?_, hchar, ?_, ?_, ?_, ?_, ?_, ?_⟩
  · intro hsg
    simp [fetch_and_save_stargazer_data, hsg]
  · intro sg recs hsg hrecs
    rw [hchar sg hsg] at hrecs
    exact analyzeAll_length env now sg recs hrecs
  · intro sg recs hsg hrecs
    rw [hchar sg hsg] at hrecs
    exact analyzeAll_get_login env now sg recs hrecs
  · intro login env1 hd
    simp [processStargazer, hd]
  · intro login env1 d r hd hstar hr
    simp only [processStargazer, hd] at hr
    repeat' split at hr
    all_goals
      first
      | cases hr
      | exact (fun hf => ⟨hf.1.trans rfl, hf.2.1.trans rfl, hf.2.2.1.trans rfl,
          hf.2.2.2.trans rfl⟩)
          (processStargazerRest_starred_none _ _ _ _ _ hstar _ hr)
  · intro login env1 d r hd hp hrepos hr
    have hb : decide (0 < d.public_repos.getD 0) = true := decide_eq_true hp
    simp only [processStargazer, hd, hrepos, hb, if_true] at hr
    exact (fun hf => ⟨hf.1.trans rfl, hf.2.trans rfl⟩)
      (processStargazerRest_top5 _ _ _ _ _ _ hr)
  · intro login env1 d r hd hp hact hr
    have hb : decide (0 < d.public_repos.getD 0) = true := decide_eq_true hp
    simp only [processStargazer, hd, hb, if_true] at hr
    repeat' split at hr
    all_goals
      first
      | cases hr
      | exact processStargazerRest_activity_none _ _ _ _ hact _ hr

/-- C7 witness: a two-stargazer run evaluated concretely.  A network
exception on the stargazers request crashes the whole job; otherwise the
run yields one record per stargazer in order with matching logins, with
the error markers from failed detail, starred, repos and activity
fetches. -/
theorem c7_amended_one_record_per_stargazer_witness :
    fetch_and_save_stargazer_data "o" "r" none 0 [none] (fun _ => envDetailsFail) = .crash
    ∧ fetch_and_save_stargazer_data "o" "r" none 0
        [some { status := 200, body := [⟨"bob"⟩, ⟨"z"⟩] }]
        (fun login => if login = "z" then envStarredFail else envReposFail)
        = .ret [recReposFailBob, recStarredFailZ]
    ∧ ([recReposFailBob, recStarredFailZ] : List Record).length =
        ([⟨"bob"⟩, ⟨"z"⟩] : List Stargazer).length
    ∧ ((([recReposFailBob, recStarredFailZ] : List Record).get
          ⟨0, by decide⟩).login = (([⟨"bob"⟩, ⟨"z"⟩] : List Stargazer).get ⟨0, by decide⟩).login)
    ∧ processStargazer "a" envDetailsFail 0 = .ret (errorRecord "a")
    ∧ (recStarredFailZ.starred_repo_status = Val.s "Error"
       ∧ recStarredFailZ.starred_repos_sample = Val.s "Error"
       ∧ recStarredFailZ.starred_repos_descriptions = Val.s "Error"
       ∧ recStarredFailZ.total_starred_count = none)
    ∧ (recReposFailBob.top_5_repos = Val.s "Error fetching repos"
       ∧ recReposFailBob.top_5_repos_descriptions = Val.s "Error fetching repos")
    ∧ recActivityFailC.user_activity = Val.s "Error fetching activity or private" := by
  have t1 := c7_amended_one_record_per_stargazer "o" "r" none 0 [none] (fun _ => envDetailsFail)
  have t2 := c7_amended_one_record_per_stargazer "o" "r" none 0
    [some { status := 200, body := [⟨"bob"⟩, ⟨"z"⟩] }]
    (fun login => if login = "z" then envStarredFail else envReposFail)
  have hret : fetch_and_save_stargazer_data "o" "r" none 0
      [some { status := 200, body := [⟨"bob"⟩, ⟨"z"⟩] }]
      (fun login => if login = "z" then envStarredFail else envReposFail)
      = .ret [recReposFailBob, recStarredFailZ] :=
    (t2.2.1 [⟨"bob"⟩, ⟨"z"⟩] rfl).trans rfl
  refine ⟨t1.1 rfl, hret,
    t2.2.2.1 [⟨"bob"⟩, ⟨"z"⟩] [recReposFailBob, recStarredFailZ] rfl hret,
    t2.2.2.2.1 [⟨"bob"⟩, ⟨"z"⟩] [recReposFailBob, recStarredFailZ] rfl hret 0
      (by decide) (by decide),
    t2.2.2.2.2.1 "a" envDetailsFail rfl,
    t2.2.2.2.2.2.1 "z" envStarredFail { public_repos := some 0 } recStarredFailZ
      rfl rfl rfl,
    t2.2.2.2.2.2.2.1 "bob" envReposFail { public_repos := some 2 } recReposFailBob
      rfl (by decide) rfl rfl,
    t2.2.2.2.2.2.2.2 "c" envActivityFail { public_repos := some 1 } recActivityFailC
      rfl (by decide) rfl rfl⟩

/-- C10: for a stargazer whose details were fetched, the record (when the
run does not crash) has `starred_repo_status` equal to
`"Private (No Access to Starred Repo)"` iff `get_starred_repos` returned
an empty list, equal to `"Public (Has Starred Repos)"` iff it returned a
non-empty list, and left as `'Error'` when it returned `None`; the
`total_starred_count` key is present in the record exactly when the
starred list was fetched, and then holds the result of
`get_total_starred_count` (watchdog.py lines 502-530). -/
theorem c10_starred_status_fields :
    ∀ (login : String) (env : UserEnv) (now : Q) (d : UserJson) (r : Record),
      (get_user_details login now env.detailsScript).1 = .ret (some d) →
      processStargazer login env now = .ret r →
      ((r.starred_repo_status = Val.s "Private (No Access to Starred Repo)")
          ↔ (get_starred_repos login now env.starredScript).1 = .ret (some []))
      ∧ ((r.starred_repo_status = Val.s "Public (Has Starred Repos)")
          ↔ ∃ x l, (get_starred_repos login now env.starredScript).1 =
              .ret (some (x :: l)))
      ∧ ((get_starred_repos login now env.starredScript).1 = .ret none →
          r.starred_repo_status = Val.s "Error")
      ∧ ((r.total_starred_count ≠ none)
          ↔ (get_starred_repos login now env.starredScript).1 ≠ .ret none)
      ∧ (∀ sl t, (get_starred_repos login now env.starredScript).1 = .ret (some sl) →
          (get_total_starred_count login now env.countScript).1 = .ret t →
          r.total_starred_count = some t) := by
  intro login env now d r hd hr
  cases hs : (get_starred_repos login now env.starredScript).1 with
  | crash =>
    exfalso
    simp only [processStargazer, hd] at hr
    repeat' split at hr
    all_goals
      first
      | cases hr
      | exact Outcome.noConfusion
          (((processStargazerRest_crash _ _ _ _ _ hs).symm.trans hr))
  | ret v =>
    cases v with
    | none =>
      have hstat : r.starred_repo_status = Val.s "Error" ∧
          r.total_starred_count = none := by
        simp only [processStargazer, hd] at hr
        repeat' split at hr
        all_goals
          first
          | cases hr
          | exact (fun hf => ⟨hf.1.trans rfl, hf.2.2.2.trans rfl⟩)
              (processStargazerRest_starred_none _ _ _ _ _ hs _ hr)
      refine ⟨?_, ?_, ?_, ?_, ?_⟩
      · rw [hstat.1]
        constructor
        · intro hx
          exact absurd hx (by decide)
        · intro hx
          simp at hx
      · rw [hstat.1]
        constructor
        · intro hx
          exact absurd hx (by decide)
        · rintro ⟨x, l, hx⟩
          simp at hx
      · intro _
        exact hstat.1
      · rw [hstat.2]
        simp
      · intro sl t hsl _
        simp at hsl
    | some sl =>
      cases sl with
      | nil =>
        have hstat : r.starred_repo_status =
            Val.s "Private (No Access to Starred Repo)" := by
          simp only [processStargazer, hd] at hr
          repeat' split at hr
          all_goals
            first
            | cases hr
            | exact processStargazerRest_starred_empty _ _ _ _ _ hs _ hr
        have hne : r.total_starred_count ≠ none := by
          simp only [processStargazer, hd] at hr
          repeat' split at hr
          all_goals
            first
            | cases hr
            | exact processStargazerRest_total_ne _ _ _ _ _ _ hs _ hr
        refine ⟨?_, ?_, ?_, ?_, ?_⟩
        · rw [hstat]
          exact ⟨fun _ => rfl, fun _ => rfl⟩
        · rw [hstat]
          constructor
          · intro hx
            exact absurd hx (by decide)
          · rintro ⟨x, l, hx⟩
            simp at hx
        · intro hx
          simp at hx
        · exact iff_of_true hne (by simp)
        · intro sl' t hsl' hcnt
          simp only [processStargazer, hd] at hr
          repeat' split at hr
          all_goals
            first
            | cases hr
            | exact processStargazerRest_total _ _ _ _ _ [] t hs hcnt _ hr
      | cons x l =>
        have hstat : r.starred_repo_status = Val.s "Public (Has Starred Repos)" := by
          simp only [processStargazer, hd] at hr
          repeat' split at hr
          all_goals
            first
            | cases hr
            | exact processStargazerRest_starred_cons _ _ _ _ _ x l hs _ hr
        have hne : r.total_starred_count ≠ none := by
          simp only [processStargazer, hd] at hr
          repeat' split at hr
          all_goals
            first
            | cases hr
            | exact processStargazerRest_total_ne _ _ _ _ _ _ hs _ hr
        refine ⟨?_, ?_, ?_, ?_, ?_⟩
        · rw [hstat]
          constructor
          · intro hx
            exact absurd hx (by decide)
          · intro hx
            simp at hx
        · rw [hstat]
          exact ⟨fun _ => ⟨x, l, rfl⟩, fun _ => rfl⟩
        · intro hx
          simp at hx
        · exact iff_of_true hne (by simp)
        · intro sl' t hsl' hcnt
          simp only [processStargazer, hd] at hr
          repeat' split at hr
          all_goals
            first
            | cases hr
            | exact processStargazerRest_total _ _ _ _ _ (x :: l) t hs hcnt _ hr

/-- C10 witness: the three starred-fetch outcomes evaluated on concrete
environments, with the count key present or absent accordingly. -/
theorem c10_starred_status_fields_witness :
    processStargazer "p" envStarredEmpty 0 = .ret recStarredEmptyP
    ∧ recStarredEmptyP.starred_repo_status = Val.s "Private (No Access to Starred Repo)"
    ∧ processStargazer "q" envStarredSome 0 = .ret recStarredSomeQ
    ∧ recStarredSomeQ.starred_repo_status = Val.s "Public (Has Starred Repos)"
    ∧ processStargazer "s" envStarredFail 0 = .ret recStarredFailS
    ∧ recStarredFailS.starred_repo_status = Val.s "Error"
    ∧ recStarredEmptyP.total_starred_count = some (some (StarredCount.cnt 3))
    ∧ recStarredFailS.total_starred_count = none := by
  have h1 := c10_starred_status_fields "p" envStarredEmpty 0 { public_repos := some 0 }
    recStarredEmptyP rfl rfl
  have h2 := c10_starred_status_fields "q" envStarredSome 0 { public_repos := some 0 }
    recStarredSomeQ rfl rfl
  have h3 := c10_starred_status_fields "s" envStarredFail 0 { public_repos := some 0 }
    recStarredFailS rfl rfl
  refine ⟨rfl, h1.1.mpr rfl, rfl, h2.2.1.mpr ⟨("m", ""), [], rfl⟩, rfl,
    h3.2.2.1 rfl, h1.2.2.2.2 [] (some (StarredCount.cnt 3)) rfl rfl, ?_⟩
  by_contra hne
  exact (h3.2.2.2.1.mp hne) rfl
